import Mathlib

/-!
Verification development for `googlecalendar.py` of the repository
`viewfromaside/integration-google-calendar`.

The module defines a single class `GoogleCalendarService` that
  * loads OAuth credentials from local files (`_connect`),
  * guards every public method with an `authenticate` decorator that tries to
    make the credentials valid and the discovery `service` object available,
  * forwards `find_many_events` / `find_one_event` / `create_event` /
    `update_event` / `remove_event` to the remote `events()` resource and
    serializes the reply with `json.dumps`.

The embedding below models the Python code directly.  External library
behaviour (the Google discovery client, `datetime`, the file system, the
OAuth flow) is modelled as an explicit environment:
  * `Api` is the oracle answering `execute()` on an issued events() call,
  * `Env` packages the file system, credential loaders and `datetime`,
  * effects (file reads/writes, the local OAuth server, `print`) are recorded
    in an explicit trace of `EffOp`s.
Python exceptions are represented by the `PyErr` type and `Except`; the
`except HttpError` handlers of the source only catch the `PyErr.http`
constructor.
-/

set_option autoImplicit false

namespace GCal

/-- Python JSON-like values (the dictionaries and lists that flow through the
wrapper methods and `json.dumps`). -/
inductive Json where
  | null
  | bool (b : Bool)
  | num (n : Int)
  | str (s : String)
  | arr (items : List Json)
  | obj (fields : List (String × Json))

/-- Escaping of one character inside a serialized JSON string (backslash and
double quote, the escapes relevant to the payloads of the program). -/
def escapeChar (c : Char) : String :=
  if c = '\\' then "\\\\" else if c = '"' then "\\\"" else String.singleton c

/-- Escaping of the contents of a serialized JSON string. -/
def escapeStr (s : String) : String :=
  String.join (s.toList.map escapeChar)

mutual

/-- `json.dumps` with the default separators of CPython. -/
def dumps : Json → String
  | .null => "null"
  | .bool b => if b then "true" else "false"
  | .num n => toString n
  | .str s => "\"" ++ escapeStr s ++ "\""
  | .arr xs => "[" ++ dumpsItems xs ++ "]"
  | .obj fs => "\x7b" ++ dumpsFields fs ++ "\x7d"

/-- Comma-separated serialization of the elements of a JSON array. -/
def dumpsItems : List Json → String
  | [] => ""
  | [x] => dumps x
  | x :: y :: xs => dumps x ++ ", " ++ dumpsItems (y :: xs)

/-- Comma-separated serialization of the fields of a JSON object. -/
def dumpsFields : List (String × Json) → String
  | [] => ""
  | [(k, v)] => "\"" ++ escapeStr k ++ "\": " ++ dumps v
  | (k, v) :: f :: fs =>
      "\"" ++ escapeStr k ++ "\": " ++ dumps v ++ ", " ++ dumpsFields (f :: fs)

end

/-- Python exceptions that can arise in the modelled code.  `http` is
`googleapiclient.errors.HttpError` (the only class the source catches). -/
inductive PyErr where
  | http (msg : String)
  | typeError (msg : String)
  | attributeError (msg : String)
  | valueError (msg : String)
  | other (msg : String)
  deriving Repr, DecidableEq

/-- Rendering of an exception used by the `print(f"an error occurred: {e}")`
log lines. -/
def showErr : PyErr → String
  | .http m => m
  | .typeError m => m
  | .attributeError m => m
  | .valueError m => m
  | .other m => m

/-- Observable side effects of the program: local file operations, the
interactive OAuth local server (with the port it is started on), a
hypothetical token refresh (the vocabulary needed to state that the code
never performs one), and `print` logging. -/
inductive EffOp where
  | readTokenFile
  | readSecretsFile
  | writeTokenFile (contents : String)
  | runLocalServer (port : Nat)
  | refreshCredentials
  | printLog (line : String)
  deriving Repr, DecidableEq

/-- `google.oauth2.credentials.Credentials`: the fields the program reads
(`valid`) together with its `to_json()` serialization. -/
structure Creds where
  valid : Bool
  toJson : String
  deriving Repr, DecidableEq

/-- The discovery `Resource` returned by `build("calendar", "v3", ...)`,
remembering the credentials it was built with. -/
structure Service where
  creds : Option Creds
  deriving Repr, DecidableEq

/-- The attributes of a `GoogleCalendarService` instance set by `__init__`. -/
structure State where
  scopes : List String
  credentialsPath : Option String
  tokenPath : Option String
  calendarId : String
  oauthPort : Int
  allowUpdate : Bool
  credentials : Option Creds
  service : Option Service
  deriving Repr, DecidableEq

def READ_ONLY_SCOPE : String := "https://www.googleapis.com/auth/calendar.readonly"

def WRITE_SCOPE : String := "https://www.googleapis.com/auth/calendar"

/-- `GoogleCalendarService.__init__`: stores the arguments and, when `scopes`
is falsy (absent or the empty list), installs the read-only scope plus the
write scope when `allow_update` is set. -/
def init (scopes : Option (List String)) (credentials_path token_path : Option String)
    (calendar_id : String) (oauth_port : Int) (allow_update : Bool) : State :=
  let scopes0 := match scopes with
    | none => []
    | some l => l
  let scopes1 := if scopes0.isEmpty then
      READ_ONLY_SCOPE :: (if allow_update then [WRITE_SCOPE] else [])
    else scopes0
  { scopes := scopes1
    credentialsPath := credentials_path
    tokenPath := token_path
    calendarId := calendar_id
    oauthPort := oauth_port
    allowUpdate := allow_update
    credentials := none
    service := none }

/-- A `datetime.datetime` as the program observes it: the naive ISO text and
the optional `tzinfo` rendered as a UTC-offset suffix of `isoformat()`. -/
structure Dt where
  naive : String
  tz : Option String
  deriving Repr, DecidableEq

/-- `datetime.isoformat()`: the naive text followed by the offset suffix when
the value is timezone-aware. -/
def Dt.isoformat (d : Dt) : String :=
  d.naive ++ (match d.tz with
    | none => ""
    | some z => z)

/-- `dt.replace(tzinfo=datetime.timezone.utc)`. -/
def Dt.replaceUtc (d : Dt) : Dt :=
  { d with tz := some "+00:00" }

/-- The ambient environment: file system facts, the credential loaders of the
Google auth libraries, and `datetime`.  `loadToken` is
`Credentials.from_authorized_user_file`, `runFlow p` is
`InstalledAppFlow.from_client_secrets_file(...).run_local_server(port=p)`,
`build` is `googleapiclient.discovery.build`, `fromisoformat` returns `none`
where `datetime.datetime.fromisoformat` raises `ValueError`, and `nowUtc` is
`datetime.datetime.now(datetime.timezone.utc)`. -/
structure Env where
  tokenFileExists : Bool
  loadToken : Except PyErr Creds
  runFlow : Nat → Except PyErr Creds
  build : Option Creds → Except PyErr Service
  fromisoformat : String → Option Dt
  nowUtc : Dt

/-- Python truthiness of `self.credentials and self.credentials.valid`. -/
def credsTruthyValid : Option Creds → Bool
  | none => false
  | some c => c.valid

/-- Result of running `_connect`: its effect trace, the (possibly partially
mutated) instance state, and the exception it raised, if any. -/
structure ConnectOut where
  trace : List EffOp
  state : State
  err : Option PyErr
  deriving Repr

/-- `GoogleCalendarService._connect`: return early when the credentials are
already valid; otherwise load the token file when it exists, and when the
result is still missing or invalid run the interactive OAuth flow with
`port=0` and write the obtained credentials to the token file. -/
def _connect (env : Env) (s : State) : ConnectOut :=
  if credsTruthyValid s.credentials then
    ⟨[], s, none⟩
  else
    let step1 : List EffOp × State × Option PyErr :=
      if env.tokenFileExists then
        match env.loadToken with
        | .ok c => ([.readTokenFile], { s with credentials := some c }, none)
        | .error e => ([.readTokenFile], s, some e)
      else ([], s, none)
    match step1 with
    | (tr, s1, some e) => ⟨tr, s1, some e⟩
    | (tr, s1, none) =>
      if credsTruthyValid s1.credentials then ⟨tr, s1, none⟩
      else
        match env.runFlow 0 with
        | .error e => ⟨tr ++ [.readSecretsFile], s1, some e⟩
        | .ok c =>
            ⟨tr ++ [.readSecretsFile, .runLocalServer 0, .writeTokenFile c.toJson],
             { s1 with credentials := some c }, none⟩

/-- Result of the guard of the `authenticate` decorator: effect trace, post-guard
state, and the exception the guard caught (the guard never re-raises). -/
structure GuardOut where
  trace : List EffOp
  state : State
  caught : Option PyErr
  deriving Repr

/-- The guard of the `authenticate` decorator: inside a `try`, call
`_connect` when the credentials are missing or invalid, then build the
discovery service when `self.service` is unset; any exception is printed and
swallowed, after which the wrapped method runs regardless. -/
def authGuard (env : Env) (s : State) : GuardOut :=
  let afterConnect : List EffOp × State × Option PyErr :=
    if credsTruthyValid s.credentials then ([], s, none)
    else
      let r := _connect env s
      (r.trace, r.state, r.err)
  match afterConnect with
  | (tr, s1, some e) =>
      ⟨tr ++ [.printLog ("an error occurred: " ++ showErr e)], s1, some e⟩
  | (tr, s1, none) =>
    match s1.service with
    | some _ => ⟨tr, s1, none⟩
    | none =>
      match env.build s1.credentials with
      | .ok sv => ⟨tr, { s1 with service := some sv }, none⟩
      | .error e =>
          ⟨tr ++ [.printLog ("an error occurred: " ++ showErr e)], s1, some e⟩

/-- A call issued to the `events()` resource of the discovery client: the
method name and the keyword arguments the Python code passes. -/
structure EventsCall where
  method : String
  kwargs : List (String × Json)

/-- The keyword parameters the discovery-built `events()` resource methods
accept (from the Calendar v3 discovery document; `body` is the request-body
parameter of the mutating methods).  The generated method raises `TypeError`
for any keyword not in this list. -/
def acceptedKwargs : String → List String
  | "list" => ["calendarId", "maxResults", "singleEvents", "orderBy", "timeMin",
      "timeMax", "pageToken", "q", "timeZone", "showDeleted", "updatedMin",
      "iCalUID", "privateExtendedProperty", "sharedExtendedProperty", "alwaysIncludeEmail"]
  | "get" => ["calendarId", "eventId", "timeZone", "maxAttendees", "alwaysIncludeEmail"]
  | "insert" => ["calendarId", "body", "sendUpdates", "sendNotifications",
      "conferenceDataVersion", "maxAttendees", "supportsAttachments"]
  | "update" => ["calendarId", "eventId", "body", "sendUpdates", "sendNotifications",
      "conferenceDataVersion", "maxAttendees", "supportsAttachments", "alwaysIncludeEmail"]
  | "delete" => ["calendarId", "eventId", "sendUpdates", "sendNotifications"]
  | _ => []

/-- Whether every keyword of the call is accepted by the discovery method. -/
def validCall (c : EventsCall) : Bool :=
  c.kwargs.all (fun kv => (acceptedKwargs c.method).contains kv.1)

/-- The remote API oracle: the outcome of `execute()` on an issued call —
either the parsed JSON reply or the text of an `HttpError`. -/
def Api : Type := EventsCall → Except String Json

/-- Issuing a call through the discovery client: the generated method first
validates the keyword arguments (raising `TypeError` on an unexpected one,
before any request is sent); only then does `execute()` reach the remote API,
whose failure is an `HttpError`. -/
def execCall (api : Api) (c : EventsCall) : Except PyErr Json :=
  if validCall c then
    match api c with
    | .ok j => .ok j
    | .error m => .error (.http m)
  else .error (.typeError "Got an unexpected keyword argument")

/-- Association lookup on a kwargs list / Python dict. -/
def lookupKw (k : String) : List (String × Json) → Option Json
  | [] => none
  | kv :: rest => if kv.1 = k then some kv.2 else lookupKw k rest

/-- Python dict assignment `d[k] = v`: replace the value in place when the
key is present, append the pair otherwise. -/
def pyDictSet (kv : String × Json) : List (String × Json) → List (String × Json)
  | [] => [kv]
  | (k, v) :: rest => if k = kv.1 then (k, kv.2) :: rest else (k, v) :: pyDictSet kv rest

/-- `.get(key, default)` on a parsed JSON object. -/
def jsonGet (j : Json) (k : String) (default : Json) : Json :=
  match j with
  | .obj fs =>
    match lookupKw k fs with
    | some v => v
    | none => default
  | _ => default

/-- `events_result.get("items", [])`, as the list of events it contributes to
`events.extend(...)` (the `items` field of the API reply is a JSON array). -/
def jsonItems (j : Json) : List Json :=
  match jsonGet j "items" (.arr []) with
  | .arr xs => xs
  | _ => []

/-- Python truthiness of a JSON value (`if page_token:`, `if not events:`). -/
def jsonTruthy : Json → Bool
  | .null => false
  | .bool b => b
  | .num n => n != 0
  | .str s => s != ""
  | .arr xs => !xs.isEmpty
  | .obj fs => !fs.isEmpty

/-- Python truthiness of an optional-string argument (`if start_date:`). -/
def strArgTruthy : Option String → Bool
  | none => false
  | some s => s != ""

/-- Truthiness of `limit` in `if limit and len(events) >= limit:`. -/
def limitTruthy : Option Int → Bool
  | none => false
  | some l => l != 0

/-- `min(limit, 100)`: raises `TypeError` when `limit` is `None`. -/
def pyMinInt (limit : Option Int) (b : Int) : Except PyErr Int :=
  match limit with
  | none => .error (.typeError "min of NoneType and int is not supported")
  | some a => .ok (min a b)

/-- The Python slice `events[:limit]` for an arbitrary integer bound. -/
def pySliceTo (xs : List Json) (i : Int) : List Json :=
  if 0 ≤ i then xs.take i.toNat
  else xs.take (xs.length - min xs.length i.natAbs)

/-- The error payload `json.dumps({"error": f"an error occurred: {error}"})`
shared by the handlers of `find_many_events`, `find_one_event`,
`create_event` and `update_event`. -/
def errorPayload (m : String) : String :=
  dumps (.obj [("error", .str ("an error occurred: " ++ m))])

/-- The `events().get(calendarId=..., eventId=...)` call of `find_one_event`. -/
def findOneCall (calId event_id : String) : EventsCall :=
  ⟨"get", [("calendarId", .str calId), ("eventId", .str event_id)]⟩

/-- Body of `find_one_event` (inside the `authenticate` guard): issue the
`get` call and serialize the reply; `except HttpError` yields the error
payload; any other exception propagates. -/
def findOneBody (api : Api) (s : State) (event_id : String) : Except PyErr String :=
  match s.service with
  | none => .error (.attributeError "NoneType object has no attribute events")
  | some _ =>
    match execCall api (findOneCall s.calendarId event_id) with
    | .ok ev => .ok (dumps ev)
    | .error (.http m) => .ok (errorPayload m)
    | .error e => .error e

/-- The `events().insert(calendarId=..., body=event_data)` call of
`create_event`. -/
def createEventCall (calId : String) (event_data : Json) : EventsCall :=
  ⟨"insert", [("calendarId", .str calId), ("body", event_data)]⟩

/-- Body of `create_event`: issue the `insert` call and serialize the created
event; `except HttpError` yields the error payload. -/
def createEventBody (api : Api) (s : State) (event_data : Json) : Except PyErr String :=
  match s.service with
  | none => .error (.attributeError "NoneType object has no attribute events")
  | some _ =>
    match execCall api (createEventCall s.calendarId event_data) with
    | .ok ev => .ok (dumps ev)
    | .error (.http m) => .ok (errorPayload m)
    | .error e => .error e

/-- The `events().update(calendarId=..., eventId=..., body=updated_data)`
call of `update_event`. -/
def updateEventCall (calId event_id : String) (updated_data : Json) : EventsCall :=
  ⟨"update", [("calendarId", .str calId), ("eventId", .str event_id),
    ("body", updated_data)]⟩

/-- Body of `update_event`: issue the `update` call and serialize the updated
event; `except HttpError` yields the error payload. -/
def updateEventBody (api : Api) (s : State) (event_id : String) (updated_data : Json) :
    Except PyErr String :=
  match s.service with
  | none => .error (.attributeError "NoneType object has no attribute events")
  | some _ =>
    match execCall api (updateEventCall s.calendarId event_id updated_data) with
    | .ok ev => .ok (dumps ev)
    | .error (.http m) => .ok (errorPayload m)
    | .error e => .error e

/-- The call `remove_event` issues: the source passes the keyword
`event_id=event_id` (not `eventId=event_id`) to `events().delete`. -/
def removeEventCall (calId event_id : String) : EventsCall :=
  ⟨"delete", [("calendarId", .str calId), ("event_id", .str event_id)]⟩

/-- Body of `remove_event`: issue the `delete` call and on success return the
synthesized success payload; `except HttpError` yields an error payload whose
text reads "an error occured" (sic). -/
def removeEventBody (api : Api) (s : State) (event_id : String) : Except PyErr String :=
  match s.service with
  | none => .error (.attributeError "NoneType object has no attribute events")
  | some _ =>
    match execCall api (removeEventCall s.calendarId event_id) with
    | .ok _ => .ok (dumps (.obj [("success", .bool true),
        ("message", .str ("event $" ++ event_id ++ " removed successfully"))]))
    | .error (.http m) => .ok (dumps (.obj [("error", .str ("an error occured: " ++ m))]))
    | .error e => .error e

/-- The `timeMin`/`timeMax` value computed from a truthy date argument:
`datetime.datetime.fromisoformat` is tried; on success a naive datetime gets
UTC attached and `isoformat()` is forwarded; on `ValueError` the raw string
is forwarded verbatim. -/
def timeParamValue (env : Env) (raw : String) : String :=
  match env.fromisoformat raw with
  | some dt => (if dt.tz = none then dt.replaceUtc else dt).isoformat
  | none => raw

/-- The `params` dict of `find_many_events` as built before the loop, given
the already-computed `min(limit, 100)`. -/
def buildListParams (env : Env) (calId : String) (maxResults : Int)
    (start_date end_date : Option String) : List (String × Json) :=
  let params0 : List (String × Json) :=
    [("calendarId", .str calId), ("maxResults", .num maxResults),
     ("singleEvents", .bool true), ("orderBy", .str "startTime")]
  let params1 :=
    if strArgTruthy start_date then
      pyDictSet ("timeMin", .str (timeParamValue env ((start_date).getD ""))) params0
    else
      pyDictSet ("timeMin", .str env.nowUtc.isoformat) params0
  if strArgTruthy end_date then
    pyDictSet ("timeMax", .str (timeParamValue env ((end_date).getD ""))) params1
  else params1

/-- The `while True:` pagination loop of `find_many_events`, with explicit
fuel (`none` means the loop had not finished within the given fuel).  Each
iteration optionally stores `pageToken` into `params`, accesses
`self.service.events()` (an `AttributeError` when the guard left `service`
unset), issues the `list` call, extends `events` with the items of the reply,
truncates and stops when `limit` is truthy and reached, and otherwise stops
when `nextPageToken` is falsy.  The calls issued are returned alongside the
accumulated events. -/
def findManyLoop (api : Api) (svc : Option Service) (limit : Option Int) :
    Nat → List (String × Json) → List Json → Json → List EventsCall →
    Option (Except PyErr (List EventsCall × List Json))
  | 0, _, _, _, _ => none
  | fuel + 1, params, events, pageToken, calls =>
    let params1 := if jsonTruthy pageToken then pyDictSet ("pageToken", pageToken) params
      else params
    match svc with
    | none => some (.error (.attributeError "NoneType object has no attribute events"))
    | some _ =>
      let c : EventsCall := ⟨"list", params1⟩
      match execCall api c with
      | .error e => some (.error e)
      | .ok resp =>
        let events1 := events ++ jsonItems resp
        let calls1 := calls ++ [c]
        let cont : Option (Except PyErr (List EventsCall × List Json)) :=
          let tok := jsonGet resp "nextPageToken" .null
          if jsonTruthy tok then findManyLoop api svc limit fuel params1 events1 tok calls1
          else some (.ok (calls1, events1))
        match limit with
        | some l =>
          if l != 0 ∧ (events1.length : Int) ≥ l then
            some (.ok (calls1, pySliceTo events1 l))
          else cont
        | none => cont

/-- The `try` body of `find_many_events` up to (and including) the loop:
`min(limit, 100)` is computed first (a `TypeError` when `limit` is `None`),
then the params dict is built and the loop runs. -/
def findManyCore (env : Env) (api : Api) (s : State) (limit : Option Int)
    (start_date end_date : Option String) (fuel : Nat) :
    Option (Except PyErr (List EventsCall × List Json)) :=
  match pyMinInt limit 100 with
  | .error e => some (.error e)
  | .ok mr =>
    findManyLoop api s.service limit fuel
      (buildListParams env s.calendarId mr start_date end_date) [] .null []

/-- Body of `find_many_events`: run the core, then serialize — the
"no events found" message when the accumulated list is empty, otherwise the
JSON of the accumulated events; `except HttpError` yields the error payload;
other exceptions propagate. -/
def findManyBody (env : Env) (api : Api) (s : State) (limit : Option Int)
    (start_date end_date : Option String) (fuel : Nat) :
    Option (Except PyErr String) :=
  match findManyCore env api s limit start_date end_date fuel with
  | none => none
  | some (.error (.http m)) => some (.ok (errorPayload m))
  | some (.error e) => some (.error e)
  | some (.ok (_, events)) =>
    if events.isEmpty then
      some (.ok (dumps (.obj [("message", .str "no events found")])))
    else
      some (.ok (dumps (.arr events)))

/-- Outcome of a full (decorated) method: the effect trace of the guard, the
post-guard instance state, and the value the method returns or the
exception it raises. -/
structure MethodOut (α : Type) where
  trace : List EffOp
  state : State
  result : α

/-- The decorated `find_many_events`: the `authenticate` guard runs first,
then the body runs on the post-guard state whatever the outcome of the guard. -/
def find_many_events (env : Env) (api : Api) (s : State) (limit : Option Int)
    (start_date end_date : Option String) (fuel : Nat) :
    MethodOut (Option (Except PyErr String)) :=
  let g := authGuard env s
  ⟨g.trace, g.state, findManyBody env api g.state limit start_date end_date fuel⟩

/-- The decorated `find_one_event`. -/
def find_one_event (env : Env) (api : Api) (s : State) (event_id : String) :
    MethodOut (Except PyErr String) :=
  let g := authGuard env s
  ⟨g.trace, g.state, findOneBody api g.state event_id⟩

/-- The decorated `create_event`. -/
def create_event (env : Env) (api : Api) (s : State) (event_data : Json) :
    MethodOut (Except PyErr String) :=
  let g := authGuard env s
  ⟨g.trace, g.state, createEventBody api g.state event_data⟩

/-- The decorated `update_event`. -/
def update_event (env : Env) (api : Api) (s : State) (event_id : String)
    (updated_data : Json) : MethodOut (Except PyErr String) :=
  let g := authGuard env s
  ⟨g.trace, g.state, updateEventBody api g.state event_id updated_data⟩

/-- The decorated `remove_event`. -/
def remove_event (env : Env) (api : Api) (s : State) (event_id : String) :
    MethodOut (Except PyErr String) :=
  let g := authGuard env s
  ⟨g.trace, g.state, removeEventBody api g.state event_id⟩

/-! Concrete fixtures used by witnesses and counterexamples. -/

/-- A valid cached credential. -/
def credsOk : Creds := ⟨true, "cached-token"⟩

/-- A service object built from the valid credential. -/
def svcOk : Service := ⟨some credsOk⟩

/-- A concrete `datetime.datetime.now(datetime.timezone.utc)`. -/
def dtNow : Dt := ⟨"2025-01-01T00:00:00", some "+00:00"⟩

/-- An environment in which no file or flow interaction is needed. -/
def envReady : Env :=
  ⟨false, .error (.other "token file is unreadable"),
   fun _ => .ok ⟨true, "fresh-token"⟩, fun c => .ok ⟨c⟩, fun _ => none, dtNow⟩

/-- An instance state that is already authenticated: valid credentials and
a built service, `calendar_id = "main"` (the `__init__` default). -/
def stReady : State :=
  { scopes := [READ_ONLY_SCOPE], credentialsPath := none, tokenPath := none,
    calendarId := "main", oauthPort := 8080, allowUpdate := false,
    credentials := some credsOk, service := some svcOk }

/-- An API oracle whose every reply is `null`. -/
def apiNull : Api := fun _ => .ok .null

/-- An API oracle that fails every call with the same `HttpError` text. -/
def apiHttpErr : Api := fun _ => .error "HttpError 403"

/-- An API oracle answering every `list` call with an empty `items` page and
no `nextPageToken`. -/
def apiEmptyPage : Api := fun _ => .ok (.obj [("items", .arr [])])

/-- The items the oracle contributes at an issued call in a successful run of
the pagination loop (`[]` at calls the oracle fails). -/
def okItems (api : Api) (c : EventsCall) : List Json :=
  match api c with
  | .ok r => jsonItems r
  | .error _ => []

/-- Overwrite only the `oauth_port` attribute of an instance state. -/
def setPort (s : State) (p : Int) : State :=
  { s with oauthPort := p }

/-- Whether an effect touches a local file. -/
def isFileOp : EffOp → Bool
  | .readTokenFile => true
  | .readSecretsFile => true
  | .writeTokenFile _ => true
  | _ => false

/-- A fresh instance as `main.py` constructs it. -/
def s0 : State :=
  init none (some "./credentials.json") (some "./token.json") "primary" 8080 true

/-- An environment whose token file holds expired/invalid credentials and
whose interactive flow succeeds with fresh valid ones. -/
def envStale : Env :=
  ⟨true, .ok ⟨false, "stale-token"⟩, fun _ => .ok ⟨true, "fresh-token"⟩,
   fun c => .ok ⟨c⟩, fun _ => none, dtNow⟩

/-- An environment whose token file exists but cannot be loaded. -/
def envLoadFail : Env :=
  ⟨true, .error (.valueError "token file holds malformed json"),
   fun _ => .ok ⟨true, "fresh-token"⟩, fun c => .ok ⟨c⟩, fun _ => none, dtNow⟩

/-- A concrete `datetime.datetime.fromisoformat`: parses one naive and one
timezone-aware ISO text, rejects everything else. -/
def parseIso9 : String → Option Dt := fun t =>
  if t = "2025-05-05T10:00:00" then some ⟨"2025-05-05T10:00:00", none⟩
  else if t = "2025-05-05T10:00:00+02:00" then some ⟨"2025-05-05T10:00:00", some "+02:00"⟩
  else none

/-- An already-usable environment with the concrete ISO parser. -/
def env9 : Env :=
  ⟨false, .error (.other "no token file"), fun _ => .ok ⟨true, "fresh-token"⟩,
   fun c => .ok ⟨c⟩, parseIso9, dtNow⟩

/-- Three concrete calendar events. -/
def ev1 : Json := .obj [("id", .str "e1")]

/-- Second concrete event. -/
def ev2 : Json := .obj [("id", .str "e2")]

/-- Third concrete event. -/
def ev3 : Json := .obj [("id", .str "e3")]

/-- A two-page API oracle: the first `list` call returns two events and the
page token "p2", the call carrying that token returns one final event. -/
def api8 : Api := fun c =>
  match lookupKw "pageToken" c.kwargs with
  | some (.str "p2") => .ok (.obj [("items", .arr [ev3])])
  | some _ => .error "bad page token"
  | none => .ok (.obj [("items", .arr [ev1, ev2]), ("nextPageToken", .str "p2")])

/-! General lemmas about the dictionary operations and the call layer. -/

theorem lookupKw_pyDictSet_self (kv : String × Json) (ps : List (String × Json)) :
    lookupKw kv.1 (pyDictSet kv ps) = some kv.2 := by
  induction ps with
  | nil => simp [pyDictSet, lookupKw]
  | cons q rest ih =>
    obtain ⟨qk, qv⟩ := q
    by_cases h : qk = kv.1
    · simp [pyDictSet, h, lookupKw]
    · simp [pyDictSet, h, lookupKw, ih, Ne.symm h]

theorem lookupKw_pyDictSet_ne (k : String) (kv : String × Json)
    (ps : List (String × Json)) (h : ¬ kv.1 = k) :
    lookupKw k (pyDictSet kv ps) = lookupKw k ps := by
  induction ps with
  | nil => simp [pyDictSet, lookupKw, h]
  | cons q rest ih =>
    obtain ⟨qk, qv⟩ := q
    by_cases hq : qk = kv.1
    · have hk : ¬ qk = k := by
        intro hkk
        exact h (hq ▸ hkk)
      simp [pyDictSet, hq, lookupKw, hk, h]
    · have h' : ¬ k = kv.1 := fun hh => h hh.symm
      by_cases hk : qk = k
      · simp [pyDictSet, hq, lookupKw, hk, h']
      · simp [pyDictSet, hq, lookupKw, hk, h', ih]

theorem lookupKw_pyDictSet_ne_key (k kk : String) (v : Json)
    (ps : List (String × Json)) (h : ¬ kk = k) :
    lookupKw k (pyDictSet (kk, v) ps) = lookupKw k ps :=
  lookupKw_pyDictSet_ne k (kk, v) ps h

theorem lookupKw_pyDictSet_self_key (kk : String) (v : Json) (ps : List (String × Json)) :
    lookupKw kk (pyDictSet (kk, v) ps) = some v :=
  lookupKw_pyDictSet_self (kk, v) ps

theorem pyDictSet_all_keys (pk : String → Bool) (kv : String × Json)
    (ps : List (String × Json)) (h1 : pk kv.1 = true)
    (h2 : ps.all (fun q => pk q.1) = true) :
    (pyDictSet kv ps).all (fun q => pk q.1) = true := by
  induction ps with
  | nil => simp [pyDictSet, h1]
  | cons q rest ih =>
    obtain ⟨qk, qv⟩ := q
    simp only [List.all_cons, Bool.and_eq_true] at h2
    by_cases hq : qk = kv.1
    · simp [pyDictSet, hq, List.all_cons, h1, h2.1, h2.2]
    · simp [pyDictSet, hq, List.all_cons, h2.1, ih h2.2]

theorem all_keys_base4 (pk : String → Bool) (a b c d : String) (va vb vc vd : Json)
    (ha : pk a = true) (hb : pk b = true) (hc : pk c = true) (hd : pk d = true) :
    (([(a, va), (b, vb), (c, vc), (d, vd)] : List (String × Json)).all
      fun q => pk q.1) = true := by
  simp [List.all_cons, ha, hb, hc, hd]

theorem lookupKw_buildListParams_other (env : Env) (cal : String) (mr : Int)
    (sd ed : Option String) (k : String)
    (h1 : ¬ "timeMin" = k) (h2 : ¬ "timeMax" = k) :
    lookupKw k (buildListParams env cal mr sd ed)
      = lookupKw k [("calendarId", .str cal), ("maxResults", .num mr),
          ("singleEvents", .bool true), ("orderBy", .str "startTime")] := by
  unfold buildListParams
  cases hsd : strArgTruthy sd <;> cases hed : strArgTruthy ed <;>
    simp only [Bool.false_eq_true, if_true, if_false]
  case false.false => rw [lookupKw_pyDictSet_ne_key k "timeMin" _ _ h1]
  case false.true =>
    rw [lookupKw_pyDictSet_ne_key k "timeMax" _ _ h2, lookupKw_pyDictSet_ne_key k "timeMin" _ _ h1]
  case true.false => rw [lookupKw_pyDictSet_ne_key k "timeMin" _ _ h1]
  case true.true =>
    rw [lookupKw_pyDictSet_ne_key k "timeMax" _ _ h2, lookupKw_pyDictSet_ne_key k "timeMin" _ _ h1]

theorem buildListParams_calendarId (env : Env) (cal : String) (mr : Int)
    (sd ed : Option String) :
    lookupKw "calendarId" (buildListParams env cal mr sd ed) = some (.str cal) := by
  rw [lookupKw_buildListParams_other env cal mr sd ed "calendarId" (by decide) (by decide)]
  rfl

theorem buildListParams_maxResults (env : Env) (cal : String) (mr : Int)
    (sd ed : Option String) :
    lookupKw "maxResults" (buildListParams env cal mr sd ed) = some (.num mr) := by
  rw [lookupKw_buildListParams_other env cal mr sd ed "maxResults" (by decide) (by decide)]
  rfl

theorem buildListParams_timeMin (env : Env) (cal : String) (mr : Int)
    (sd ed : Option String) :
    lookupKw "timeMin" (buildListParams env cal mr sd ed)
      = some (.str (if strArgTruthy sd then timeParamValue env (sd.getD "")
          else env.nowUtc.isoformat)) := by
  unfold buildListParams
  cases hsd : strArgTruthy sd <;> cases hed : strArgTruthy ed <;>
    simp only [Bool.false_eq_true, if_true, if_false]
  case false.false => exact lookupKw_pyDictSet_self_key "timeMin" _ _
  case false.true =>
    rw [lookupKw_pyDictSet_ne_key "timeMin" "timeMax" _ _ (by decide)]
    exact lookupKw_pyDictSet_self_key "timeMin" _ _
  case true.false => exact lookupKw_pyDictSet_self_key "timeMin" _ _
  case true.true =>
    rw [lookupKw_pyDictSet_ne_key "timeMin" "timeMax" _ _ (by decide)]
    exact lookupKw_pyDictSet_self_key "timeMin" _ _

theorem buildListParams_timeMax_truthy (env : Env) (cal : String) (mr : Int)
    (sd ed : Option String) (h : strArgTruthy ed = true) :
    lookupKw "timeMax" (buildListParams env cal mr sd ed)
      = some (.str (timeParamValue env (ed.getD ""))) := by
  unfold buildListParams
  cases hsd : strArgTruthy sd <;>
    simp only [h, hsd, Bool.false_eq_true, if_true, if_false] <;>
    exact lookupKw_pyDictSet_self_key "timeMax" _ _

theorem buildListParams_timeMax_falsy (env : Env) (cal : String) (mr : Int)
    (sd ed : Option String) (h : strArgTruthy ed = false) :
    lookupKw "timeMax" (buildListParams env cal mr sd ed) = none := by
  unfold buildListParams
  cases hsd : strArgTruthy sd <;>
    simp only [h, hsd, Bool.false_eq_true, if_true, if_false] <;>
    rw [lookupKw_pyDictSet_ne_key "timeMax" "timeMin" _ _ (by decide)] <;> rfl

theorem validCall_buildListParams (env : Env) (cal : String) (mr : Int)
    (sd ed : Option String) :
    validCall ⟨"list", buildListParams env cal mr sd ed⟩ = true := by
  unfold validCall buildListParams
  cases hsd : strArgTruthy sd <;> cases hed : strArgTruthy ed <;>
    simp only [Bool.false_eq_true, if_true, if_false]
  case false.false =>
    apply pyDictSet_all_keys
    · rfl
    · apply all_keys_base4 <;> rfl
  case false.true =>
    apply pyDictSet_all_keys
    · rfl
    · apply pyDictSet_all_keys
      · rfl
      · apply all_keys_base4 <;> rfl
  case true.false =>
    apply pyDictSet_all_keys
    · rfl
    · apply all_keys_base4 <;> rfl
  case true.true =>
    apply pyDictSet_all_keys
    · rfl
    · apply pyDictSet_all_keys
      · rfl
      · apply all_keys_base4 <;> rfl

theorem validCall_pyDictSet_pageToken (kwargs : List (String × Json)) (tok : Json)
    (h : validCall ⟨"list", kwargs⟩ = true) :
    validCall ⟨"list", pyDictSet ("pageToken", tok) kwargs⟩ = true := by
  unfold validCall at h ⊢
  apply pyDictSet_all_keys
  · rfl
  · exact h

theorem credsTruthyValid_some (c : Creds) : credsTruthyValid (some c) = c.valid := rfl

theorem _connect_valid (env : Env) (s : State)
    (hv : credsTruthyValid s.credentials = true) :
    _connect env s = ⟨[], s, none⟩ := by
  unfold _connect
  simp [hv]

theorem _connect_load_err (env : Env) (s : State) (e : PyErr)
    (hv : credsTruthyValid s.credentials = false)
    (htf : env.tokenFileExists = true) (hlt : env.loadToken = .error e) :
    _connect env s = ⟨[.readTokenFile], s, some e⟩ := by
  unfold _connect
  simp [hv, htf, hlt]

theorem _connect_load_valid (env : Env) (s : State) (c : Creds)
    (hv : credsTruthyValid s.credentials = false)
    (htf : env.tokenFileExists = true) (hlt : env.loadToken = .ok c)
    (hc : c.valid = true) :
    _connect env s = ⟨[.readTokenFile], { s with credentials := some c }, none⟩ := by
  unfold _connect
  simp [hv, htf, hlt, credsTruthyValid_some, hc]

theorem _connect_load_stale_flow_err (env : Env) (s : State) (c : Creds) (e : PyErr)
    (hv : credsTruthyValid s.credentials = false)
    (htf : env.tokenFileExists = true) (hlt : env.loadToken = .ok c)
    (hc : c.valid = false) (hrf : env.runFlow 0 = .error e) :
    _connect env s
      = ⟨[.readTokenFile, .readSecretsFile], { s with credentials := some c }, some e⟩ := by
  unfold _connect
  simp [hv, htf, hlt, credsTruthyValid_some, hc, hrf]

theorem _connect_load_stale_flow_ok (env : Env) (s : State) (c c' : Creds)
    (hv : credsTruthyValid s.credentials = false)
    (htf : env.tokenFileExists = true) (hlt : env.loadToken = .ok c)
    (hc : c.valid = false) (hrf : env.runFlow 0 = .ok c') :
    _connect env s
      = ⟨[.readTokenFile, .readSecretsFile, .runLocalServer 0, .writeTokenFile c'.toJson],
         { s with credentials := some c' }, none⟩ := by
  unfold _connect
  simp [hv, htf, hlt, credsTruthyValid_some, hc, hrf]

theorem _connect_notoken_flow_err (env : Env) (s : State) (e : PyErr)
    (hv : credsTruthyValid s.credentials = false)
    (htf : env.tokenFileExists = false) (hrf : env.runFlow 0 = .error e) :
    _connect env s = ⟨[.readSecretsFile], s, some e⟩ := by
  unfold _connect
  simp [hv, htf, hrf]

theorem _connect_notoken_flow_ok (env : Env) (s : State) (c' : Creds)
    (hv : credsTruthyValid s.credentials = false)
    (htf : env.tokenFileExists = false) (hrf : env.runFlow 0 = .ok c') :
    _connect env s
      = ⟨[.readSecretsFile, .runLocalServer 0, .writeTokenFile c'.toJson],
         { s with credentials := some c' }, none⟩ := by
  unfold _connect
  simp [hv, htf, hrf]

theorem authGuard_valid_service (env : Env) (s : State) (sv : Service)
    (hv : credsTruthyValid s.credentials = true) (hs : s.service = some sv) :
    authGuard env s = ⟨[], s, none⟩ := by
  unfold authGuard
  simp [hv, hs]

theorem authGuard_valid_build_ok (env : Env) (s : State) (sv : Service)
    (hv : credsTruthyValid s.credentials = true) (hs : s.service = none)
    (hb : env.build s.credentials = .ok sv) :
    authGuard env s = ⟨[], { s with service := some sv }, none⟩ := by
  unfold authGuard
  simp [hv, hs, hb]

theorem authGuard_valid_build_err (env : Env) (s : State) (e : PyErr)
    (hv : credsTruthyValid s.credentials = true) (hs : s.service = none)
    (hb : env.build s.credentials = .error e) :
    authGuard env s
      = ⟨[.printLog ("an error occurred: " ++ showErr e)], s, some e⟩ := by
  unfold authGuard
  simp [hv, hs, hb]

theorem authGuard_invalid (env : Env) (s : State)
    (hv : credsTruthyValid s.credentials = false) :
    authGuard env s =
      (match (_connect env s).err with
       | some e =>
           ⟨(_connect env s).trace ++ [.printLog ("an error occurred: " ++ showErr e)],
            (_connect env s).state, some e⟩
       | none =>
         match (_connect env s).state.service with
         | some _ => ⟨(_connect env s).trace, (_connect env s).state, none⟩
         | none =>
           match env.build (_connect env s).state.credentials with
           | .ok sv =>
               ⟨(_connect env s).trace,
                { (_connect env s).state with service := some sv }, none⟩
           | .error e =>
               ⟨(_connect env s).trace ++ [.printLog ("an error occurred: " ++ showErr e)],
                (_connect env s).state, some e⟩) := by
  unfold authGuard
  have hv' : ¬ credsTruthyValid s.credentials = true := by simp [hv]
  rw [if_neg hv']
  rcases h : _connect env s with ⟨tr, st, err⟩
  cases err with
  | some e => rfl
  | none =>
    cases hsv : st.service with
    | some sv => simp [hsv]
    | none =>
      cases hb : env.build st.credentials with
      | ok sv => simp [hsv, hb]
      | error e => simp [hsv, hb]

theorem execCall_ok (api : Api) (c : EventsCall) (j : Json)
    (h : execCall api c = .ok j) : api c = .ok j := by
  unfold execCall at h
  split at h
  · cases hac : api c with
    | ok j' =>
      rw [hac] at h
      cases h
      rfl
    | error m =>
      rw [hac] at h
      cases h
  · cases h

theorem execCall_error_cases (api : Api) (c : EventsCall) (e : PyErr)
    (h : execCall api c = .error e) :
    (validCall c = true ∧ ∃ m, api c = .error m ∧ e = .http m)
    ∨ (validCall c = false ∧ e = .typeError "Got an unexpected keyword argument") := by
  unfold execCall at h
  by_cases hv : validCall c = true
  · left
    refine ⟨hv, ?_⟩
    rw [if_pos hv] at h
    cases hac : api c with
    | ok j => rw [hac] at h; cases h
    | error m =>
      rw [hac] at h
      cases h
      exact ⟨m, rfl, rfl⟩
  · right
    have hv' : validCall c = false := by
      cases hb : validCall c
      · rfl
      · exact absurd hb hv
    refine ⟨hv', ?_⟩
    rw [if_neg hv] at h
    cases h
    rfl

theorem findOneBody_no_http (api : Api) (s : State) (event_id : String) (m : String) :
    findOneBody api s event_id ≠ .error (.http m) := by
  intro h
  unfold findOneBody at h
  split at h
  · simp at h
  · split at h <;> simp_all

theorem createEventBody_no_http (api : Api) (s : State) (event_data : Json) (m : String) :
    createEventBody api s event_data ≠ .error (.http m) := by
  intro h
  unfold createEventBody at h
  split at h
  · simp at h
  · split at h <;> simp_all

theorem updateEventBody_no_http (api : Api) (s : State) (event_id : String)
    (updated_data : Json) (m : String) :
    updateEventBody api s event_id updated_data ≠ .error (.http m) := by
  intro h
  unfold updateEventBody at h
  split at h
  · simp at h
  · split at h <;> simp_all

theorem removeEventBody_no_http (api : Api) (s : State) (event_id : String) (m : String) :
    removeEventBody api s event_id ≠ .error (.http m) := by
  intro h
  unfold removeEventBody at h
  split at h
  · simp at h
  · split at h <;> simp_all

theorem findManyBody_no_http (env : Env) (api : Api) (s : State) (limit : Option Int)
    (start_date end_date : Option String) (fuel : Nat) (m : String) :
    findManyBody env api s limit start_date end_date fuel ≠ some (.error (.http m)) := by
  intro h
  unfold findManyBody at h
  split at h
  · simp at h
  · simp at h
  · simp_all
  · split at h <;> simp at h

theorem findManyBody_of_core_ok (env : Env) (api : Api) (s : State) (limit : Option Int)
    (start_date end_date : Option String) (fuel : Nat) (cs : List EventsCall)
    (evs : List Json)
    (h : findManyCore env api s limit start_date end_date fuel = some (.ok (cs, evs))) :
    findManyBody env api s limit start_date end_date fuel
      = some (.ok (if evs.isEmpty then dumps (.obj [("message", .str "no events found")])
          else dumps (.arr evs))) := by
  unfold findManyBody
  rw [h]
  cases he : evs.isEmpty <;> simp [he]

theorem findManyBody_of_core_http (env : Env) (api : Api) (s : State) (limit : Option Int)
    (start_date end_date : Option String) (fuel : Nat) (m : String)
    (h : findManyCore env api s limit start_date end_date fuel = some (.error (.http m))) :
    findManyBody env api s limit start_date end_date fuel = some (.ok (errorPayload m)) := by
  unfold findManyBody
  rw [h]

theorem pySliceTo_length_le (xs : List Json) (l : Int) (hl : 0 ≤ l) :
    ((pySliceTo xs l).length : Int) ≤ l := by
  unfold pySliceTo
  rw [if_pos hl]
  have h1 : (xs.take l.toNat).length ≤ l.toNat := by
    rw [List.length_take]
    exact min_le_left _ _
  calc ((xs.take l.toNat).length : Int) ≤ (l.toNat : Int) := Int.ofNat_le.mpr h1
    _ = l := Int.toNat_of_nonneg hl

theorem findManyLoop_calls_sat (api : Api) (svc : Option Service) (limit : Option Int)
    (P : EventsCall → Prop)
    (hstep : ∀ kwargs tok, P ⟨"list", kwargs⟩ → P ⟨"list", pyDictSet ("pageToken", tok) kwargs⟩) :
    ∀ (fuel : Nat) (params : List (String × Json)) (events : List Json)
      (pageToken : Json) (calls cs : List EventsCall) (evs : List Json),
      P ⟨"list", params⟩ → (∀ c ∈ calls, P c) →
      findManyLoop api svc limit fuel params events pageToken calls = some (.ok (cs, evs)) →
      ∀ c ∈ cs, P c := by
  intro fuel
  induction fuel with
  | zero =>
    intro params events pageToken calls cs evs hp hcs hloop
    simp [findManyLoop] at hloop
  | succ n ih =>
    intro params events pageToken calls cs evs hp hcs hloop
    simp only [findManyLoop] at hloop
    generalize hP1 : (if jsonTruthy pageToken
        then pyDictSet ("pageToken", pageToken) params else params) = params1 at hloop
    have hp1 : P ⟨"list", params1⟩ := by
      rw [← hP1]
      split
      · exact hstep params pageToken hp
      · exact hp
    have hcalls1 : ∀ c ∈ calls ++ [(⟨"list", params1⟩ : EventsCall)], P c := by
      intro c hc
      rcases List.mem_append.mp hc with hc1 | hc2
      · exact hcs c hc1
      · rw [List.mem_singleton.mp hc2]
        exact hp1
    cases svc with
    | none => simp at hloop
    | some sv =>
      cases hexec : execCall api ⟨"list", params1⟩ with
      | error e =>
        rw [hexec] at hloop
        simp at hloop
      | ok resp =>
        rw [hexec] at hloop
        cases limit with
        | none =>
          simp only at hloop
          split at hloop
          · exact ih params1 _ _ _ cs evs hp1 hcalls1 hloop
          · simp only [Option.some.injEq, Except.ok.injEq, Prod.mk.injEq] at hloop
            intro c hc
            apply hcalls1
            rw [hloop.1]
            exact hc
        | some l =>
          simp only at hloop
          split at hloop
          · simp only [Option.some.injEq, Except.ok.injEq, Prod.mk.injEq] at hloop
            intro c hc
            apply hcalls1
            rw [hloop.1]
            exact hc
          · split at hloop
            · exact ih params1 _ _ _ cs evs hp1 hcalls1 hloop
            · simp only [Option.some.injEq, Except.ok.injEq, Prod.mk.injEq] at hloop
              intro c hc
              apply hcalls1
              rw [hloop.1]
              exact hc

theorem findManyLoop_le_limit (api : Api) (svc : Option Service) (l : Int) (hl : 0 < l) :
    ∀ (fuel : Nat) (params : List (String × Json)) (events : List Json)
      (pageToken : Json) (calls cs : List EventsCall) (evs : List Json),
      (events.length : Int) < l →
      findManyLoop api svc (some l) fuel params events pageToken calls = some (.ok (cs, evs)) →
      (evs.length : Int) ≤ l := by
  intro fuel
  induction fuel with
  | zero =>
    intro params events pageToken calls cs evs hlen hloop
    simp [findManyLoop] at hloop
  | succ n ih =>
    intro params events pageToken calls cs evs hlen hloop
    simp only [findManyLoop] at hloop
    generalize hP1 : (if jsonTruthy pageToken
        then pyDictSet ("pageToken", pageToken) params else params) = params1 at hloop
    cases svc with
    | none => simp at hloop
    | some sv =>
      cases hexec : execCall api ⟨"list", params1⟩ with
      | error e =>
        rw [hexec] at hloop
        simp at hloop
      | ok resp =>
        rw [hexec] at hloop
        simp only at hloop
        split at hloop
        · simp only [Option.some.injEq, Except.ok.injEq, Prod.mk.injEq] at hloop
          rw [← hloop.2]
          exact pySliceTo_length_le _ l (le_of_lt hl)
        · rename_i hcond
          have h0 : (l != 0) = true := bne_iff_ne.mpr hl.ne'
          have hlen1 : ((events ++ jsonItems resp).length : Int) < l := by
            by_contra hge
            push_neg at hge
            exact hcond ⟨h0, hge⟩
          split at hloop
          · exact ih params1 _ _ _ cs evs hlen1 hloop
          · simp only [Option.some.injEq, Except.ok.injEq, Prod.mk.injEq] at hloop
            rw [← hloop.2]
            exact le_of_lt hlen1

theorem findManyLoop_zero_limit (api : Api) (svc : Option Service) :
    ∀ (fuel : Nat) (params : List (String × Json)) (events : List Json)
      (pageToken : Json) (calls cs : List EventsCall) (evs : List Json),
      findManyLoop api svc (some 0) fuel params events pageToken calls = some (.ok (cs, evs)) →
      ∃ newCalls, cs = calls ++ newCalls
        ∧ evs = events ++ (newCalls.map (okItems api)).flatten := by
  intro fuel
  induction fuel with
  | zero =>
    intro params events pageToken calls cs evs hloop
    simp [findManyLoop] at hloop
  | succ n ih =>
    intro params events pageToken calls cs evs hloop
    simp only [findManyLoop] at hloop
    generalize hP1 : (if jsonTruthy pageToken
        then pyDictSet ("pageToken", pageToken) params else params) = params1 at hloop
    cases svc with
    | none => simp at hloop
    | some sv =>
      cases hexec : execCall api ⟨"list", params1⟩ with
      | error e =>
        rw [hexec] at hloop
        simp at hloop
      | ok resp =>
        rw [hexec] at hloop
        simp only at hloop
        rw [if_neg (fun hcond => absurd hcond.1 (by decide))] at hloop
        have hok : okItems api ⟨"list", params1⟩ = jsonItems resp := by
          unfold okItems
          rw [execCall_ok api _ _ hexec]
        split at hloop
        · obtain ⟨nc, hcs, hevs⟩ := ih params1 _ _ _ cs evs hloop
          refine ⟨⟨"list", params1⟩ :: nc, ?_, ?_⟩
          · rw [hcs]
            simp
          · rw [hevs]
            simp [hok, List.append_assoc]
        · simp only [Option.some.injEq, Except.ok.injEq, Prod.mk.injEq] at hloop
          refine ⟨[⟨"list", params1⟩], ?_, ?_⟩
          · rw [← hloop.1]
          · rw [← hloop.2]
            simp [hok]

theorem findManyCore_pos_limit (env : Env) (api : Api) (s : State) (l : Int)
    (hl : 0 < l) (start_date end_date : Option String) (fuel : Nat)
    (cs : List EventsCall) (evs : List Json)
    (h : findManyCore env api s (some l) start_date end_date fuel = some (.ok (cs, evs))) :
    (evs.length : Int) ≤ l
    ∧ ∀ c ∈ cs, lookupKw "maxResults" c.kwargs = some (.num (min l 100)) := by
  unfold findManyCore at h
  simp only [pyMinInt] at h
  constructor
  · exact findManyLoop_le_limit api s.service l hl fuel _ [] .null [] cs evs
      (by simpa using hl) h
  · refine findManyLoop_calls_sat api s.service (some l)
      (fun c => lookupKw "maxResults" c.kwargs = some (.num (min l 100)))
      ?_ fuel _ [] .null [] cs evs ?_ (by simp) h
    · intro kwargs tok hkw
      rw [lookupKw_pyDictSet_ne_key "maxResults" "pageToken" tok kwargs (by decide)]
      exact hkw
    · exact buildListParams_maxResults env s.calendarId (min l 100) start_date end_date

theorem findManyCore_zero_limit (env : Env) (api : Api) (s : State)
    (start_date end_date : Option String) (fuel : Nat)
    (cs : List EventsCall) (evs : List Json)
    (h : findManyCore env api s (some 0) start_date end_date fuel = some (.ok (cs, evs))) :
    evs = (cs.map (okItems api)).flatten := by
  unfold findManyCore at h
  simp only [pyMinInt] at h
  obtain ⟨nc, h1, h2⟩ := findManyLoop_zero_limit api s.service fuel _ [] .null [] cs evs h
  simp only [List.nil_append] at h1 h2
  rw [h1, h2]

theorem findManyCore_none_limit (env : Env) (api : Api) (s : State)
    (start_date end_date : Option String) (fuel : Nat) :
    findManyCore env api s none start_date end_date fuel
      = some (.error (.typeError "min of NoneType and int is not supported")) := by
  unfold findManyCore pyMinInt
  rfl

theorem _connect_ok_creds_valid (env : Env) (s : State)
    (hflow : ∀ c, env.runFlow 0 = .ok c → c.valid = true)
    (herr : (_connect env s).err = none) :
    credsTruthyValid (_connect env s).state.credentials = true := by
  cases hv : credsTruthyValid s.credentials
  case true =>
    rw [_connect_valid env s hv]
    exact hv
  case false =>
    cases htf : env.tokenFileExists
    case true =>
      cases hlt : env.loadToken with
      | error e =>
        rw [_connect_load_err env s e hv htf hlt] at herr
        cases herr
      | ok c =>
        cases hc : c.valid
        case true =>
          rw [_connect_load_valid env s c hv htf hlt hc]
          show credsTruthyValid (some c) = true
          rw [credsTruthyValid_some]
          exact hc
        case false =>
          cases hrf : env.runFlow 0 with
          | error e =>
            rw [_connect_load_stale_flow_err env s c e hv htf hlt hc hrf] at herr
            cases herr
          | ok c' =>
            rw [_connect_load_stale_flow_ok env s c c' hv htf hlt hc hrf]
            show credsTruthyValid (some c') = true
            rw [credsTruthyValid_some]
            exact hflow c' hrf
    case false =>
      cases hrf : env.runFlow 0 with
      | error e =>
        rw [_connect_notoken_flow_err env s e hv htf hrf] at herr
        cases herr
      | ok c' =>
        rw [_connect_notoken_flow_ok env s c' hv htf hrf]
        show credsTruthyValid (some c') = true
        rw [credsTruthyValid_some]
        exact hflow c' hrf

theorem authGuard_trace_shape_valid (env : Env) (s : State)
    (hv : credsTruthyValid s.credentials = true) :
    (authGuard env s).trace = [] ∨ ∃ l, (authGuard env s).trace = [.printLog l] := by
  cases hsv : s.service with
  | some sv =>
    rw [authGuard_valid_service env s sv hv hsv]
    left
    rfl
  | none =>
    cases hb : env.build s.credentials with
    | ok sv =>
      rw [authGuard_valid_build_ok env s sv hv hsv hb]
      left
      rfl
    | error e =>
      rw [authGuard_valid_build_err env s e hv hsv hb]
      right
      exact ⟨_, rfl⟩

theorem authGuard_trace_shape_invalid (env : Env) (s : State)
    (hv : credsTruthyValid s.credentials = false) :
    (authGuard env s).trace = (_connect env s).trace
    ∨ ∃ l, (authGuard env s).trace = (_connect env s).trace ++ [.printLog l] := by
  rw [authGuard_invalid env s hv]
  cases herr : (_connect env s).err with
  | some e =>
    right
    exact ⟨_, rfl⟩
  | none =>
    cases hsv : (_connect env s).state.service with
    | some sv =>
      left
      rfl
    | none =>
      cases hb : env.build (_connect env s).state.credentials with
      | ok sv =>
        left
        rfl
      | error e =>
        right
        exact ⟨_, rfl⟩

theorem authGuard_file_mem_iff (env : Env) (s : State) (op : EffOp)
    (hf : isFileOp op = true) :
    (op ∈ (authGuard env s).trace)
      ↔ credsTruthyValid s.credentials = false ∧ op ∈ (_connect env s).trace := by
  have hne : ∀ l, ¬ op = EffOp.printLog l := by
    intro l he
    rw [he] at hf
    cases hf
  cases hv : credsTruthyValid s.credentials
  case true =>
    rcases authGuard_trace_shape_valid env s hv with h | ⟨l, h⟩
    · rw [h]
      simp
    · rw [h]
      simp [hne l]
  case false =>
    rcases authGuard_trace_shape_invalid env s hv with h | ⟨l, h⟩
    · rw [h]
      simp
    · rw [h]
      simp [List.mem_append, hne l]

theorem _connect_write_mem_iff (env : Env) (s : State) :
    (∃ ct, EffOp.writeTokenFile ct ∈ (_connect env s).trace)
      ↔ credsTruthyValid s.credentials = false
        ∧ (env.tokenFileExists = true → ∃ c, env.loadToken = .ok c ∧ c.valid = false)
        ∧ (∃ c', env.runFlow 0 = .ok c') := by
  cases hv : credsTruthyValid s.credentials
  case true =>
    rw [_connect_valid env s hv]
    simp [hv]
  case false =>
    cases htf : env.tokenFileExists
    case true =>
      cases hlt : env.loadToken with
      | error e =>
        rw [_connect_load_err env s e hv htf hlt]
        simp [htf, hlt]
      | ok c =>
        cases hc : c.valid
        case true =>
          rw [_connect_load_valid env s c hv htf hlt hc]
          simp [htf, hlt, hc]
        case false =>
          cases hrf : env.runFlow 0 with
          | error e =>
            rw [_connect_load_stale_flow_err env s c e hv htf hlt hc hrf]
            simp [htf, hlt, hc, hrf]
          | ok c' =>
            rw [_connect_load_stale_flow_ok env s c c' hv htf hlt hc hrf]
            simp [htf, hlt, hc, hrf]
    case false =>
      cases hrf : env.runFlow 0 with
      | error e =>
        rw [_connect_notoken_flow_err env s e hv htf hrf]
        simp [htf, hrf]
      | ok c' =>
        rw [_connect_notoken_flow_ok env s c' hv htf hrf]
        simp [htf, hrf]

theorem _connect_readToken_mem_iff (env : Env) (s : State) :
    (EffOp.readTokenFile ∈ (_connect env s).trace)
      ↔ credsTruthyValid s.credentials = false ∧ env.tokenFileExists = true := by
  cases hv : credsTruthyValid s.credentials
  case true =>
    rw [_connect_valid env s hv]
    simp [hv]
  case false =>
    cases htf : env.tokenFileExists
    case true =>
      cases hlt : env.loadToken with
      | error e =>
        rw [_connect_load_err env s e hv htf hlt]
        simp [htf]
      | ok c =>
        cases hc : c.valid
        case true =>
          rw [_connect_load_valid env s c hv htf hlt hc]
          simp [htf]
        case false =>
          cases hrf : env.runFlow 0 with
          | error e =>
            rw [_connect_load_stale_flow_err env s c e hv htf hlt hc hrf]
            simp [htf]
          | ok c' =>
            rw [_connect_load_stale_flow_ok env s c c' hv htf hlt hc hrf]
            simp [htf]
    case false =>
      cases hrf : env.runFlow 0 with
      | error e =>
        rw [_connect_notoken_flow_err env s e hv htf hrf]
        simp [htf]
      | ok c' =>
        rw [_connect_notoken_flow_ok env s c' hv htf hrf]
        simp [htf]

theorem _connect_readSecrets_mem_iff (env : Env) (s : State) :
    (EffOp.readSecretsFile ∈ (_connect env s).trace)
      ↔ credsTruthyValid s.credentials = false
        ∧ (env.tokenFileExists = true → ∃ c, env.loadToken = .ok c ∧ c.valid = false) := by
  cases hv : credsTruthyValid s.credentials
  case true =>
    rw [_connect_valid env s hv]
    simp [hv]
  case false =>
    cases htf : env.tokenFileExists
    case true =>
      cases hlt : env.loadToken with
      | error e =>
        rw [_connect_load_err env s e hv htf hlt]
        simp [htf, hlt]
      | ok c =>
        cases hc : c.valid
        case true =>
          rw [_connect_load_valid env s c hv htf hlt hc]
          simp [htf, hlt, hc]
        case false =>
          cases hrf : env.runFlow 0 with
          | error e =>
            rw [_connect_load_stale_flow_err env s c e hv htf hlt hc hrf]
            simp [htf, hlt, hc]
          | ok c' =>
            rw [_connect_load_stale_flow_ok env s c c' hv htf hlt hc hrf]
            simp [htf, hlt, hc]
    case false =>
      cases hrf : env.runFlow 0 with
      | error e =>
        rw [_connect_notoken_flow_err env s e hv htf hrf]
        simp [htf]
      | ok c' =>
        rw [_connect_notoken_flow_ok env s c' hv htf hrf]
        simp [htf]

theorem _connect_setPort (env : Env) (s : State) (p : Int) :
    _connect env (setPort s p)
      = ⟨(_connect env s).trace, setPort (_connect env s).state p, (_connect env s).err⟩ := by
  have hv' : credsTruthyValid (setPort s p).credentials = credsTruthyValid s.credentials := rfl
  cases hv : credsTruthyValid s.credentials
  case true =>
    rw [_connect_valid env (setPort s p) (hv'.trans hv), _connect_valid env s hv]
  case false =>
    cases htf : env.tokenFileExists
    case true =>
      cases hlt : env.loadToken with
      | error e =>
        rw [_connect_load_err env (setPort s p) e (hv'.trans hv) htf hlt,
          _connect_load_err env s e hv htf hlt]
      | ok c =>
        cases hc : c.valid
        case true =>
          rw [_connect_load_valid env (setPort s p) c (hv'.trans hv) htf hlt hc,
            _connect_load_valid env s c hv htf hlt hc]
          simp [setPort]
        case false =>
          cases hrf : env.runFlow 0 with
          | error e =>
            rw [_connect_load_stale_flow_err env (setPort s p) c e (hv'.trans hv) htf hlt hc hrf,
              _connect_load_stale_flow_err env s c e hv htf hlt hc hrf]
            simp [setPort]
          | ok c' =>
            rw [_connect_load_stale_flow_ok env (setPort s p) c c' (hv'.trans hv) htf hlt hc hrf,
              _connect_load_stale_flow_ok env s c c' hv htf hlt hc hrf]
            simp [setPort]
    case false =>
      cases hrf : env.runFlow 0 with
      | error e =>
        rw [_connect_notoken_flow_err env (setPort s p) e (hv'.trans hv) htf hrf,
          _connect_notoken_flow_err env s e hv htf hrf]
      | ok c' =>
        rw [_connect_notoken_flow_ok env (setPort s p) c' (hv'.trans hv) htf hrf,
          _connect_notoken_flow_ok env s c' hv htf hrf]
        simp [setPort]

theorem authGuard_setPort (env : Env) (s : State) (p : Int) :
    authGuard env (setPort s p)
      = ⟨(authGuard env s).trace, setPort (authGuard env s).state p,
         (authGuard env s).caught⟩ := by
  have hv' : credsTruthyValid (setPort s p).credentials = credsTruthyValid s.credentials := rfl
  cases hv : credsTruthyValid s.credentials
  case true =>
    cases hsv : s.service with
    | some sv =>
      rw [authGuard_valid_service env (setPort s p) sv (hv'.trans hv) hsv,
        authGuard_valid_service env s sv hv hsv]
    | none =>
      cases hb : env.build s.credentials with
      | ok sv =>
        rw [authGuard_valid_build_ok env (setPort s p) sv (hv'.trans hv) hsv hb,
          authGuard_valid_build_ok env s sv hv hsv hb]
        simp [setPort]
      | error e =>
        rw [authGuard_valid_build_err env (setPort s p) e (hv'.trans hv) hsv hb,
          authGuard_valid_build_err env s e hv hsv hb]
  case false =>
    rw [authGuard_invalid env (setPort s p) (hv'.trans hv), authGuard_invalid env s hv,
      _connect_setPort env s p]
    simp only [setPort]
    cases herr : (_connect env s).err with
    | some e => simp [herr]
    | none =>
      simp only [herr]
      cases hsv : (_connect env s).state.service with
      | some sv => simp [hsv]
      | none =>
        simp only [hsv]
        cases hb : env.build (_connect env s).state.credentials with
        | ok sv => simp [hb, hsv]
        | error e => simp [hb, hsv]

theorem _connect_runLocalServer_zero (env : Env) (s : State) (q : Nat)
    (h : EffOp.runLocalServer q ∈ (_connect env s).trace) : q = 0 := by
  cases hv : credsTruthyValid s.credentials
  case true =>
    rw [_connect_valid env s hv] at h
    simp at h
  case false =>
    cases htf : env.tokenFileExists
    case true =>
      cases hlt : env.loadToken with
      | error e =>
        rw [_connect_load_err env s e hv htf hlt] at h
        simp at h
      | ok c =>
        cases hc : c.valid
        case true =>
          rw [_connect_load_valid env s c hv htf hlt hc] at h
          simp at h
        case false =>
          cases hrf : env.runFlow 0 with
          | error e =>
            rw [_connect_load_stale_flow_err env s c e hv htf hlt hc hrf] at h
            simp at h
          | ok c' =>
            rw [_connect_load_stale_flow_ok env s c c' hv htf hlt hc hrf] at h
            simp at h
            exact h
    case false =>
      cases hrf : env.runFlow 0 with
      | error e =>
        rw [_connect_notoken_flow_err env s e hv htf hrf] at h
        simp at h
      | ok c' =>
        rw [_connect_notoken_flow_ok env s c' hv htf hrf] at h
        simp at h
        exact h

theorem authGuard_runLocalServer_zero (env : Env) (s : State) (q : Nat)
    (h : EffOp.runLocalServer q ∈ (authGuard env s).trace) : q = 0 := by
  cases hv : credsTruthyValid s.credentials
  case true =>
    rcases authGuard_trace_shape_valid env s hv with hs | ⟨l, hs⟩ <;> rw [hs] at h <;> simp at h
  case false =>
    rcases authGuard_trace_shape_invalid env s hv with hs | ⟨l, hs⟩
    · rw [hs] at h
      exact _connect_runLocalServer_zero env s q h
    · rw [hs] at h
      rcases List.mem_append.mp h with h1 | h1
      · exact _connect_runLocalServer_zero env s q h1
      · simp at h1

theorem findOneBody_setPort (api : Api) (s : State) (p : Int) (eid : String) :
    findOneBody api (setPort s p) eid = findOneBody api s eid := rfl

theorem createEventBody_setPort (api : Api) (s : State) (p : Int) (data : Json) :
    createEventBody api (setPort s p) data = createEventBody api s data := rfl

theorem updateEventBody_setPort (api : Api) (s : State) (p : Int) (eid : String)
    (data : Json) :
    updateEventBody api (setPort s p) eid data = updateEventBody api s eid data := rfl

theorem removeEventBody_setPort (api : Api) (s : State) (p : Int) (eid : String) :
    removeEventBody api (setPort s p) eid = removeEventBody api s eid := rfl

theorem findManyBody_setPort (env : Env) (api : Api) (s : State) (p : Int)
    (limit : Option Int) (sd ed : Option String) (fuel : Nat) :
    findManyBody env api (setPort s p) limit sd ed fuel
      = findManyBody env api s limit sd ed fuel := rfl

/-! Claim theorems. -/

/-- C1: the wrapper methods forward `calendarId` from the instance, the
event id of the caller as `eventId`, and the dict of the caller as `body` — except
`remove_event`, whose delete call passes the keyword `event_id` instead of
`eventId`, so the discovery client rejects the call with `TypeError` before
any request reaches the remote API; evaluated at the failing input
`remove_event("abc")` on an authenticated instance. -/
theorem C1_wrapper_call_parameters :
    (∀ cal eid, lookupKw "calendarId" (findOneCall cal eid).kwargs = some (.str cal)
      ∧ lookupKw "eventId" (findOneCall cal eid).kwargs = some (.str eid))
    ∧ (∀ cal data, lookupKw "calendarId" (createEventCall cal data).kwargs = some (.str cal)
      ∧ lookupKw "body" (createEventCall cal data).kwargs = some data)
    ∧ (∀ cal eid data,
        lookupKw "calendarId" (updateEventCall cal eid data).kwargs = some (.str cal)
      ∧ lookupKw "eventId" (updateEventCall cal eid data).kwargs = some (.str eid)
      ∧ lookupKw "body" (updateEventCall cal eid data).kwargs = some data)
    ∧ (∀ env cal mr sd ed,
        lookupKw "calendarId" (buildListParams env cal mr sd ed) = some (.str cal))
    ∧ (∀ cal eid, lookupKw "eventId" (removeEventCall cal eid).kwargs = none
      ∧ lookupKw "event_id" (removeEventCall cal eid).kwargs = some (.str eid)
      ∧ validCall (removeEventCall cal eid) = false)
    ∧ (remove_event envReady apiNull stReady "abc").result
        = .error (.typeError "Got an unexpected keyword argument") := by
  refine ⟨?_, ?_, ?_, ?_, ?_, rfl⟩
  · intro cal eid
    exact ⟨rfl, rfl⟩
  · intro cal data
    exact ⟨rfl, rfl⟩
  · intro cal eid data
    exact ⟨rfl, rfl, rfl⟩
  · intro env cal mr sd ed
    exact buildListParams_calendarId env cal mr sd ed
  · intro cal eid
    exact ⟨rfl, rfl, rfl⟩

/-- C3 counterexample: with an API whose every reply is the page object with
an empty `items` list, `find_many_events` returns the synthesized
`no events found` message payload, which is not the JSON serialization of
the reply of the API. -/
theorem C3_counterexample :
    apiEmptyPage ⟨"list", buildListParams envReady "main" 10 none none⟩
        = .ok (.obj [("items", .arr [])])
    ∧ (find_many_events envReady apiEmptyPage stReady (some 10) none none 5).result
        = some (.ok "\x7b\"message\": \"no events found\"\x7d")
    ∧ "\x7b\"message\": \"no events found\"\x7d" ≠ dumps (.obj [("items", .arr [])]) := by
  refine ⟨rfl, rfl, ?_⟩
  decide

/-- C3 (amended): the caller-supplied dictionaries are forwarded unchanged as
the `body` keyword; `find_one_event`, `create_event` and `update_event`
return exactly the serialization of the API reply on success; but
`find_many_events` returns the serialization of the accumulated items (or a
synthesized `no events found` message when they are empty), and
`remove_event` never returns the API reply at all — its call raises
`TypeError`. -/
theorem C3_amended_passthrough :
    (∀ cal data, lookupKw "body" (createEventCall cal data).kwargs = some data)
    ∧ (∀ cal eid data, lookupKw "body" (updateEventCall cal eid data).kwargs = some data)
    ∧ (∀ env api s sv eid ev, credsTruthyValid s.credentials = true → s.service = some sv →
        api (findOneCall s.calendarId eid) = .ok ev →
        (find_one_event env api s eid).result = .ok (dumps ev))
    ∧ (∀ env api s sv data ev, credsTruthyValid s.credentials = true → s.service = some sv →
        api (createEventCall s.calendarId data) = .ok ev →
        (create_event env api s data).result = .ok (dumps ev))
    ∧ (∀ env api s sv eid data ev, credsTruthyValid s.credentials = true → s.service = some sv →
        api (updateEventCall s.calendarId eid data) = .ok ev →
        (update_event env api s eid data).result = .ok (dumps ev))
    ∧ (∀ env api s limit sd ed fuel cs evs,
        findManyCore env api (authGuard env s).state limit sd ed fuel = some (.ok (cs, evs)) →
        (find_many_events env api s limit sd ed fuel).result
          = some (.ok (if evs.isEmpty then dumps (.obj [("message", .str "no events found")])
              else dumps (.arr evs))))
    ∧ (∀ env api s sv eid, credsTruthyValid s.credentials = true → s.service = some sv →
        (remove_event env api s eid).result
          = .error (.typeError "Got an unexpected keyword argument")) := by
  refine ⟨fun cal data => rfl, fun cal eid data => rfl, ?_, ?_, ?_, ?_, ?_⟩
  · intro env api s sv eid ev hv hs hapi
    have hg := authGuard_valid_service env s sv hv hs
    show findOneBody api (authGuard env s).state eid = .ok (dumps ev)
    rw [hg]
    have hvc : validCall (findOneCall s.calendarId eid) = true := rfl
    simp [findOneBody, hs, execCall, hvc, hapi]
  · intro env api s sv data ev hv hs hapi
    have hg := authGuard_valid_service env s sv hv hs
    show createEventBody api (authGuard env s).state data = .ok (dumps ev)
    rw [hg]
    have hvc : validCall (createEventCall s.calendarId data) = true := rfl
    simp [createEventBody, hs, execCall, hvc, hapi]
  · intro env api s sv eid data ev hv hs hapi
    have hg := authGuard_valid_service env s sv hv hs
    show updateEventBody api (authGuard env s).state eid data = .ok (dumps ev)
    rw [hg]
    have hvc : validCall (updateEventCall s.calendarId eid data) = true := rfl
    simp [updateEventBody, hs, execCall, hvc, hapi]
  · intro env api s limit sd ed fuel cs evs h
    exact findManyBody_of_core_ok env api (authGuard env s).state limit sd ed fuel cs evs h
  · intro env api s sv eid hv hs
    have hg := authGuard_valid_service env s sv hv hs
    show removeEventBody api (authGuard env s).state eid = _
    rw [hg]
    have hvc : validCall (removeEventCall s.calendarId eid) = false := rfl
    simp [removeEventBody, hs, execCall, hvc]

/-- C3 witness: the amended pass-through statement evaluated at an
authenticated instance and a concrete API reply. -/
theorem C3_amended_passthrough_witness :
    (find_one_event envReady apiNull stReady "e1").result = .ok (dumps Json.null)
    ∧ (find_many_events envReady apiEmptyPage stReady (some 10) none none 5).result
        = some (.ok (dumps (.obj [("message", .str "no events found")])))
    ∧ (remove_event envReady apiNull stReady "abc").result
        = .error (.typeError "Got an unexpected keyword argument") := by
  refine ⟨?_, ?_, ?_⟩
  · exact C3_amended_passthrough.2.2.1 envReady apiNull stReady svcOk "e1" .null rfl rfl rfl
  · have h := C3_amended_passthrough.2.2.2.2.2.1 envReady apiEmptyPage stReady (some 10)
      none none 5 [⟨"list", buildListParams envReady "main" 10 none none⟩] [] rfl
    simpa using h
  · exact C3_amended_passthrough.2.2.2.2.2.2 envReady apiNull stReady svcOk "abc" rfl rfl

/-- C4 counterexample: the token file exists but holds invalid (expired)
credentials; `_connect` neither ends with the loaded credentials nor
refreshes them — it runs a fresh interactive authorization (the local-server
flow) and stores its result. -/
theorem C4_counterexample :
    envStale.tokenFileExists = true
    ∧ envStale.loadToken = .ok ⟨false, "stale-token"⟩
    ∧ (_connect envStale s0).trace
        = [.readTokenFile, .readSecretsFile, .runLocalServer 0, .writeTokenFile "fresh-token"]
    ∧ EffOp.refreshCredentials ∉ (_connect envStale s0).trace
    ∧ (_connect envStale s0).state.credentials = some ⟨true, "fresh-token"⟩ := by
  refine ⟨rfl, rfl, rfl, ?_, rfl⟩
  decide

/-- C4 (amended): when the cached credentials are invalid, `_connect`
discards them and obtains new credentials through a fresh interactive
authorization (`run_local_server`), writing them to the token file; no
token-refresh operation is ever performed, by `_connect` on any input. -/
theorem C4_amended_no_refresh (env : Env) (s : State) (c c' : Creds)
    (hv : credsTruthyValid s.credentials = false)
    (htf : env.tokenFileExists = true) (hlt : env.loadToken = .ok c)
    (hc : c.valid = false) (hrf : env.runFlow 0 = .ok c') :
    (_connect env s).state.credentials = some c'
    ∧ (_connect env s).trace
        = [.readTokenFile, .readSecretsFile, .runLocalServer 0, .writeTokenFile c'.toJson]
    ∧ ∀ (env' : Env) (s' : State), EffOp.refreshCredentials ∉ (_connect env' s').trace := by
  refine ⟨?_, ?_, ?_⟩
  · rw [_connect_load_stale_flow_ok env s c c' hv htf hlt hc hrf]
  · rw [_connect_load_stale_flow_ok env s c c' hv htf hlt hc hrf]
  · intro env' s'
    cases hv' : credsTruthyValid s'.credentials
    case true =>
      rw [_connect_valid env' s' hv']
      simp
    case false =>
      cases htf' : env'.tokenFileExists
      case true =>
        cases hlt' : env'.loadToken with
        | error e =>
          rw [_connect_load_err env' s' e hv' htf' hlt']
          simp
        | ok c2 =>
          cases hc2 : c2.valid
          case true =>
            rw [_connect_load_valid env' s' c2 hv' htf' hlt' hc2]
            simp
          case false =>
            cases hrf' : env'.runFlow 0 with
            | error e =>
              rw [_connect_load_stale_flow_err env' s' c2 e hv' htf' hlt' hc2 hrf']
              simp
            | ok c3 =>
              rw [_connect_load_stale_flow_ok env' s' c2 c3 hv' htf' hlt' hc2 hrf']
              simp
      case false =>
        cases hrf' : env'.runFlow 0 with
        | error e =>
          rw [_connect_notoken_flow_err env' s' e hv' htf' hrf']
          simp
        | ok c3 =>
          rw [_connect_notoken_flow_ok env' s' c3 hv' htf' hrf']
          simp

/-- C4 witness: the amended statement evaluated on the stale-token
environment and the fresh instance from `main.py`. -/
theorem C4_amended_no_refresh_witness :
    (_connect envStale s0).state.credentials = some ⟨true, "fresh-token"⟩
    ∧ (_connect envStale s0).trace
        = [.readTokenFile, .readSecretsFile, .runLocalServer 0, .writeTokenFile "fresh-token"] := by
  have h := C4_amended_no_refresh envStale s0 ⟨false, "stale-token"⟩ ⟨true, "fresh-token"⟩
    rfl rfl rfl rfl rfl
  exact ⟨h.1, h.2.1⟩

/-- C8 counterexample: with `limit=None` the method does not page through the
events — `min(limit, 100)` raises an uncaught `TypeError` before any request
is issued. -/
theorem C8_counterexample :
    (find_many_events envReady apiEmptyPage stReady none none none 5).result
      = some (.error (.typeError "min of NoneType and int is not supported")) := rfl

/-- C8 (amended): with a positive `limit` the accumulated events number at
most `limit` and every issued page request carries
`maxResults = min(limit, 100)`; with `limit = 0` the truncation check never
fires and the events are exactly the concatenation of the items of all pages
received; with `limit = None` the method raises `TypeError` from
`min(None, 100)` instead of paging. -/
theorem C8_amended_limit_semantics :
    (∀ env api s l sd ed fuel cs evs, 0 < l →
        findManyCore env api (authGuard env s).state (some l) sd ed fuel
          = some (.ok (cs, evs)) →
        (evs.length : Int) ≤ l
        ∧ (∀ c ∈ cs, lookupKw "maxResults" c.kwargs = some (.num (min l 100)))
        ∧ (find_many_events env api s (some l) sd ed fuel).result
            = some (.ok (if evs.isEmpty then dumps (.obj [("message", .str "no events found")])
                else dumps (.arr evs))))
    ∧ (∀ env api s sd ed fuel cs evs,
        findManyCore env api (authGuard env s).state (some 0) sd ed fuel
          = some (.ok (cs, evs)) →
        evs = (cs.map (okItems api)).flatten)
    ∧ (∀ env api s sd ed fuel,
        (find_many_events env api s none sd ed fuel).result
          = some (.error (.typeError "min of NoneType and int is not supported"))) := by
  refine ⟨?_, ?_, ?_⟩
  · intro env api s l sd ed fuel cs evs hl h
    have hcore := findManyCore_pos_limit env api (authGuard env s).state l hl sd ed fuel cs evs h
    exact ⟨hcore.1, hcore.2,
      findManyBody_of_core_ok env api (authGuard env s).state (some l) sd ed fuel cs evs h⟩
  · intro env api s sd ed fuel cs evs h
    exact findManyCore_zero_limit env api (authGuard env s).state sd ed fuel cs evs h
  · intro env api s sd ed fuel
    show findManyBody env api (authGuard env s).state none sd ed fuel = _
    unfold findManyBody
    rw [findManyCore_none_limit]

/-- C8 witness: the amended statement evaluated on a two-page API — `limit=2`
truncates after the first page, `limit=0` accumulates all three events. -/
theorem C8_amended_limit_semantics_witness :
    ((([ev1, ev2] : List Json).length : Int) ≤ 2
      ∧ (find_many_events envReady api8 stReady (some 2) none none 5).result
          = some (.ok (dumps (.arr [ev1, ev2]))))
    ∧ ([ev1, ev2, ev3] : List Json)
        = (([⟨"list", buildListParams envReady "main" 0 none none⟩,
            ⟨"list", pyDictSet ("pageToken", .str "p2")
              (buildListParams envReady "main" 0 none none)⟩] :
            List EventsCall).map (okItems api8)).flatten := by
  constructor
  · have h := C8_amended_limit_semantics.1 envReady api8 stReady 2 none none 5
      [⟨"list", buildListParams envReady "main" 2 none none⟩] [ev1, ev2] (by decide) rfl
    exact ⟨h.1, by simpa using h.2.2⟩
  · exact C8_amended_limit_semantics.2.1 envReady api8 stReady none none 5
      [⟨"list", buildListParams envReady "main" 0 none none⟩,
       ⟨"list", pyDictSet ("pageToken", .str "p2")
         (buildListParams envReady "main" 0 none none)⟩]
      [ev1, ev2, ev3] rfl

/-- C9: when `start_date` is falsy, `timeMin` is the current UTC time's
`isoformat()`; a date that parses as a naive ISO datetime gets UTC attached
before forwarding; a date that does not parse is forwarded verbatim; and
`timeMax` is treated the same way, or omitted when `end_date` is falsy. -/
theorem C9_time_window :
    (∀ env cal mr sd ed, strArgTruthy sd = false →
        lookupKw "timeMin" (buildListParams env cal mr sd ed)
          = some (.str env.nowUtc.isoformat))
    ∧ (∀ env cal mr ed t dt, env.fromisoformat t = some dt → dt.tz = none →
        strArgTruthy (some t) = true →
        lookupKw "timeMin" (buildListParams env cal mr (some t) ed)
            = some (.str dt.replaceUtc.isoformat)
        ∧ dt.replaceUtc.tz = some "+00:00")
    ∧ (∀ env cal mr ed t, env.fromisoformat t = none → strArgTruthy (some t) = true →
        lookupKw "timeMin" (buildListParams env cal mr (some t) ed) = some (.str t))
    ∧ (∀ env cal mr sd t dt, env.fromisoformat t = some dt → dt.tz = none →
        strArgTruthy (some t) = true →
        lookupKw "timeMax" (buildListParams env cal mr sd (some t))
          = some (.str dt.replaceUtc.isoformat))
    ∧ (∀ env cal mr sd t, env.fromisoformat t = none → strArgTruthy (some t) = true →
        lookupKw "timeMax" (buildListParams env cal mr sd (some t)) = some (.str t))
    ∧ (∀ env cal mr sd ed, strArgTruthy ed = false →
        lookupKw "timeMax" (buildListParams env cal mr sd ed) = none) := by
  refine ⟨?_, ?_, ?_, ?_, ?_, ?_⟩
  · intro env cal mr sd ed h
    rw [buildListParams_timeMin]
    simp [h]
  · intro env cal mr ed t dt hp htz ht
    refine ⟨?_, rfl⟩
    rw [buildListParams_timeMin]
    simp [ht, timeParamValue, hp, htz]
  · intro env cal mr ed t hp ht
    rw [buildListParams_timeMin]
    simp [ht, timeParamValue, hp]
  · intro env cal mr sd t dt hp htz ht
    rw [buildListParams_timeMax_truthy env cal mr sd (some t) ht]
    simp [timeParamValue, hp, htz]
  · intro env cal mr sd t hp ht
    rw [buildListParams_timeMax_truthy env cal mr sd (some t) ht]
    simp [timeParamValue, hp]
  · intro env cal mr sd ed h
    exact buildListParams_timeMax_falsy env cal mr sd ed h

/-- C9 witness: the time-window statement evaluated on a concrete parser —
a naive ISO start date gets `+00:00` attached, a non-ISO end date is
forwarded verbatim, and an omitted start date yields the current UTC time. -/
theorem C9_time_window_witness :
    lookupKw "timeMin"
        (buildListParams env9 "main" 10 (some "2025-05-05T10:00:00") (some "notadate"))
      = some (.str "2025-05-05T10:00:00+00:00")
    ∧ lookupKw "timeMax"
        (buildListParams env9 "main" 10 (some "2025-05-05T10:00:00") (some "notadate"))
      = some (.str "notadate")
    ∧ lookupKw "timeMin" (buildListParams env9 "main" 10 none none)
      = some (.str "2025-01-01T00:00:00+00:00") := by
  refine ⟨?_, ?_, ?_⟩
  · have h := (C9_time_window.2.1 env9 "main" 10 (some "notadate") "2025-05-05T10:00:00"
      ⟨"2025-05-05T10:00:00", none⟩ rfl rfl rfl).1
    simpa using h
  · exact C9_time_window.2.2.2.2.1 env9 "main" 10 (some "2025-05-05T10:00:00")
      "notadate" rfl rfl
  · have h := C9_time_window.1 env9 "main" 10 none none rfl
    simpa using h

/-- C2: no wrapper method ever propagates an `HttpError` (the error
class of the remote API); whenever a remote call of `find_one_event`, `create_event`,
`update_event` or `find_many_events` fails with an `HttpError`, the method
returns the JSON error payload instead.  (The delete call of `remove_event`
never reaches the remote API — see C1 — so no remote error can arise there;
its result is still never a propagated `HttpError`.) -/
theorem C2_http_errors_handled :
    (∀ env api s eid m, (find_one_event env api s eid).result ≠ .error (.http m))
    ∧ (∀ env api s data m, (create_event env api s data).result ≠ .error (.http m))
    ∧ (∀ env api s eid data m,
        (update_event env api s eid data).result ≠ .error (.http m))
    ∧ (∀ env api s eid m, (remove_event env api s eid).result ≠ .error (.http m))
    ∧ (∀ env api s limit sd ed fuel m,
        (find_many_events env api s limit sd ed fuel).result ≠ some (.error (.http m)))
    ∧ (∀ env api s sv eid m, credsTruthyValid s.credentials = true → s.service = some sv →
        api (findOneCall s.calendarId eid) = .error m →
        (find_one_event env api s eid).result = .ok (errorPayload m))
    ∧ (∀ env api s sv data m, credsTruthyValid s.credentials = true → s.service = some sv →
        api (createEventCall s.calendarId data) = .error m →
        (create_event env api s data).result = .ok (errorPayload m))
    ∧ (∀ env api s sv eid data m, credsTruthyValid s.credentials = true →
        s.service = some sv →
        api (updateEventCall s.calendarId eid data) = .error m →
        (update_event env api s eid data).result = .ok (errorPayload m))
    ∧ (∀ env api s sv l sd ed fuel m, credsTruthyValid s.credentials = true →
        s.service = some sv → (∀ c, api c = .error m) → 0 < fuel →
        (find_many_events env api s (some l) sd ed fuel).result
          = some (.ok (errorPayload m))) := by
  refine ⟨?_, ?_, ?_, ?_, ?_, ?_, ?_, ?_, ?_⟩
  · intro env api s eid m
    exact findOneBody_no_http api (authGuard env s).state eid m
  · intro env api s data m
    exact createEventBody_no_http api (authGuard env s).state data m
  · intro env api s eid data m
    exact updateEventBody_no_http api (authGuard env s).state eid data m
  · intro env api s eid m
    exact removeEventBody_no_http api (authGuard env s).state eid m
  · intro env api s limit sd ed fuel m
    exact findManyBody_no_http env api (authGuard env s).state limit sd ed fuel m
  · intro env api s sv eid m hv hs hapi
    have hg := authGuard_valid_service env s sv hv hs
    show findOneBody api (authGuard env s).state eid = .ok (errorPayload m)
    rw [hg]
    have hvc : validCall (findOneCall s.calendarId eid) = true := rfl
    simp [findOneBody, hs, execCall, hvc, hapi]
  · intro env api s sv data m hv hs hapi
    have hg := authGuard_valid_service env s sv hv hs
    show createEventBody api (authGuard env s).state data = .ok (errorPayload m)
    rw [hg]
    have hvc : validCall (createEventCall s.calendarId data) = true := rfl
    simp [createEventBody, hs, execCall, hvc, hapi]
  · intro env api s sv eid data m hv hs hapi
    have hg := authGuard_valid_service env s sv hv hs
    show updateEventBody api (authGuard env s).state eid data = .ok (errorPayload m)
    rw [hg]
    have hvc : validCall (updateEventCall s.calendarId eid data) = true := rfl
    simp [updateEventBody, hs, execCall, hvc, hapi]
  · intro env api s sv l sd ed fuel m hv hs hall hf
    have hg := authGuard_valid_service env s sv hv hs
    show findManyBody env api (authGuard env s).state (some l) sd ed fuel = _
    rw [hg]
    apply findManyBody_of_core_http
    unfold findManyCore
    simp only [pyMinInt]
    cases fuel with
    | zero => exact absurd hf (by simp)
    | succ n =>
      simp only [findManyLoop, jsonTruthy, Bool.false_eq_true, if_false, hs]
      have hval := validCall_buildListParams env s.calendarId (min l 100) sd ed
      have hexec : execCall api
          ⟨"list", buildListParams env s.calendarId (min l 100) sd ed⟩
            = .error (.http m) := by
        unfold execCall
        rw [if_pos hval, hall]
      rw [hexec]

/-- C2 witness: a failing API turns into the serialized error payload, for a
single get and for a paged list. -/
theorem C2_http_errors_handled_witness :
    (find_one_event envReady apiHttpErr stReady "e1").result
        = .ok (errorPayload "HttpError 403")
    ∧ (find_many_events envReady apiHttpErr stReady (some 10) none none 5).result
        = some (.ok (errorPayload "HttpError 403")) := by
  constructor
  · exact C2_http_errors_handled.2.2.2.2.2.1 envReady apiHttpErr stReady svcOk
      "e1" "HttpError 403" rfl rfl rfl
  · exact C2_http_errors_handled.2.2.2.2.2.2.2.2 envReady apiHttpErr stReady svcOk
      10 none none 5 "HttpError 403" rfl rfl (fun c => rfl) (by decide)

/-- C5: when the `authenticate` guard completes without catching an
exception (and the OAuth flow only hands out valid credentials), the wrapped
body runs on a state whose `service` is set and whose credentials are valid;
and the guard always runs before the wrapped body. -/
theorem C5_guard_postcondition (env : Env) (api : Api) (s : State)
    (hflow : ∀ c, env.runFlow 0 = .ok c → c.valid = true)
    (hok : (authGuard env s).caught = none) :
    (authGuard env s).state.service ≠ none
    ∧ credsTruthyValid (authGuard env s).state.credentials = true
    ∧ ∀ eid, (find_one_event env api s eid).result
        = findOneBody api (authGuard env s).state eid := by
  have main : (authGuard env s).state.service ≠ none
      ∧ credsTruthyValid (authGuard env s).state.credentials = true := by
    cases hv : credsTruthyValid s.credentials
    case false =>
      rw [authGuard_invalid env s hv] at hok ⊢
      cases herr : (_connect env s).err with
      | some e =>
        simp only [herr] at hok
        cases hok
      | none =>
        simp only [herr] at hok ⊢
        have hcv := _connect_ok_creds_valid env s hflow herr
        cases hsv : (_connect env s).state.service with
        | some sv =>
          simp only [hsv] at hok ⊢
          exact ⟨by simp [hsv], hcv⟩
        | none =>
          simp only [hsv] at hok ⊢
          cases hb : env.build (_connect env s).state.credentials with
          | ok sv =>
            simp only [hb] at hok ⊢
            constructor
            · simp
            · simpa using hcv
          | error e =>
            simp only [hb] at hok
            cases hok
    case true =>
      cases hsv : s.service with
      | some sv =>
        rw [authGuard_valid_service env s sv hv hsv]
        exact ⟨by simp [hsv], hv⟩
      | none =>
        cases hb : env.build s.credentials with
        | ok sv =>
          rw [authGuard_valid_build_ok env s sv hv hsv hb]
          exact ⟨by simp, by simpa using hv⟩
        | error e =>
          rw [authGuard_valid_build_err env s e hv hsv hb] at hok
          cases hok
  exact ⟨main.1, main.2, fun eid => rfl⟩

/-- C5 witness: the guard succeeds on a fresh instance in the stale-token
environment and leaves it authenticated. -/
theorem C5_guard_postcondition_witness :
    (authGuard envStale s0).state.service ≠ none
    ∧ credsTruthyValid (authGuard envStale s0).state.credentials = true := by
  have h := C5_guard_postcondition envStale apiNull s0
    (fun c hc => by cases hc; rfl) rfl
  exact ⟨h.1, h.2.1⟩

/-- C6: when the `authenticate` guard catches an exception, it logs the
`an error occurred` line and still invokes the wrapped method on the
post-guard state — the result of each wrapper is the result of the wrapped
body, never the exception caught by the guard; in particular with `service` still unset the body
itself then fails with `AttributeError` on `None.events()`. -/
theorem C6_auth_failure_swallowed (env : Env) (api : Api) (s : State) (e : PyErr)
    (h : (authGuard env s).caught = some e) :
    EffOp.printLog ("an error occurred: " ++ showErr e) ∈ (authGuard env s).trace
    ∧ (∀ eid, (find_one_event env api s eid).result
        = findOneBody api (authGuard env s).state eid)
    ∧ (∀ data, (create_event env api s data).result
        = createEventBody api (authGuard env s).state data)
    ∧ (∀ eid data, (update_event env api s eid data).result
        = updateEventBody api (authGuard env s).state eid data)
    ∧ (∀ eid, (remove_event env api s eid).result
        = removeEventBody api (authGuard env s).state eid)
    ∧ (∀ limit sd ed fuel, (find_many_events env api s limit sd ed fuel).result
        = findManyBody env api (authGuard env s).state limit sd ed fuel)
    ∧ ((authGuard env s).state.service = none → ∀ eid,
        (find_one_event env api s eid).result
          = .error (.attributeError "NoneType object has no attribute events")) := by
  refine ⟨?_, fun eid => rfl, fun data => rfl, fun eid data => rfl, fun eid => rfl,
    fun limit sd ed fuel => rfl, ?_⟩
  · cases hv : credsTruthyValid s.credentials
    case true =>
      cases hsv : s.service with
      | some sv =>
        rw [authGuard_valid_service env s sv hv hsv] at h
        cases h
      | none =>
        cases hb : env.build s.credentials with
        | ok sv =>
          rw [authGuard_valid_build_ok env s sv hv hsv hb] at h
          cases h
        | error e' =>
          rw [authGuard_valid_build_err env s e' hv hsv hb] at h ⊢
          simp only [Option.some.injEq] at h
          subst h
          simp
    case false =>
      rw [authGuard_invalid env s hv] at h ⊢
      cases herr : (_connect env s).err with
      | some e' =>
        simp only [herr] at h ⊢
        simp only [Option.some.injEq] at h
        subst h
        simp
      | none =>
        simp only [herr] at h ⊢
        cases hsv : (_connect env s).state.service with
        | some sv =>
          simp only [hsv] at h
          cases h
        | none =>
          simp only [hsv] at h ⊢
          cases hb : env.build (_connect env s).state.credentials with
          | ok sv =>
            simp only [hb] at h
            cases h
          | error e' =>
            simp only [hb] at h ⊢
            simp only [Option.some.injEq] at h
            subst h
            simp
  · intro hsvc eid
    show findOneBody api (authGuard env s).state eid = _
    unfold findOneBody
    simp only [hsvc]

/-- C6 witness: a guard failure (unreadable token file) is logged and the
wrapped body still runs, failing on the unset service. -/
theorem C6_auth_failure_swallowed_witness :
    EffOp.printLog ("an error occurred: " ++ showErr (.valueError "token file holds malformed json"))
        ∈ (authGuard envLoadFail s0).trace
    ∧ (find_one_event envLoadFail apiNull s0 "e1").result
        = .error (.attributeError "NoneType object has no attribute events") := by
  have h := C6_auth_failure_swallowed envLoadFail apiNull s0
    (.valueError "token file holds malformed json") rfl
  exact ⟨h.1, h.2.2.2.2.2.2 rfl "e1"⟩

/-- C7: the only file effects of any wrapper method are those of `_connect`
run by the guard: the token file is read exactly when the cached credentials are
untrusted and the file exists, the client-secret file is read (and the flow
run) exactly when no valid cached credentials could be loaded, and the token
file is written exactly when fresh credentials were obtained from the flow;
the wrapped bodies themselves touch no files. -/
theorem C7_file_effects (env : Env) (api : Api) (s : State) :
    (∀ eid, (find_one_event env api s eid).trace = (authGuard env s).trace)
    ∧ (∀ data, (create_event env api s data).trace = (authGuard env s).trace)
    ∧ (∀ eid data, (update_event env api s eid data).trace = (authGuard env s).trace)
    ∧ (∀ eid, (remove_event env api s eid).trace = (authGuard env s).trace)
    ∧ (∀ limit sd ed fuel,
        (find_many_events env api s limit sd ed fuel).trace = (authGuard env s).trace)
    ∧ ((∃ ct, EffOp.writeTokenFile ct ∈ (authGuard env s).trace)
        ↔ credsTruthyValid s.credentials = false
          ∧ (env.tokenFileExists = true → ∃ c, env.loadToken = .ok c ∧ c.valid = false)
          ∧ (∃ c', env.runFlow 0 = .ok c'))
    ∧ (EffOp.readTokenFile ∈ (authGuard env s).trace
        ↔ credsTruthyValid s.credentials = false ∧ env.tokenFileExists = true)
    ∧ (EffOp.readSecretsFile ∈ (authGuard env s).trace
        ↔ credsTruthyValid s.credentials = false
          ∧ (env.tokenFileExists = true → ∃ c, env.loadToken = .ok c ∧ c.valid = false)) := by
  refine ⟨fun eid => rfl, fun data => rfl, fun eid data => rfl, fun eid => rfl,
    fun limit sd ed fuel => rfl, ?_, ?_, ?_⟩
  · constructor
    · rintro ⟨ct, hmem⟩
      have h1 := (authGuard_file_mem_iff env s (.writeTokenFile ct) rfl).mp hmem
      exact (_connect_write_mem_iff env s).mp ⟨ct, h1.2⟩
    · intro hrhs
      obtain ⟨ct, hmem⟩ := (_connect_write_mem_iff env s).mpr hrhs
      exact ⟨ct, (authGuard_file_mem_iff env s (.writeTokenFile ct) rfl).mpr ⟨hrhs.1, hmem⟩⟩
  · rw [authGuard_file_mem_iff env s .readTokenFile rfl, _connect_readToken_mem_iff env s]
    tauto
  · rw [authGuard_file_mem_iff env s .readSecretsFile rfl, _connect_readSecrets_mem_iff env s]
    tauto

/-- C7 witness: in the stale-token environment the run of the guard reads the
token file and writes the fresh token. -/
theorem C7_file_effects_witness :
    (∃ ct, EffOp.writeTokenFile ct ∈ (authGuard envStale s0).trace)
    ∧ EffOp.readTokenFile ∈ (authGuard envStale s0).trace := by
  have h := C7_file_effects envStale apiNull s0
  refine ⟨?_, ?_⟩
  · exact h.2.2.2.2.2.1.mpr
      ⟨rfl, fun _ => ⟨⟨false, "stale-token"⟩, rfl, rfl⟩, ⟨⟨true, "fresh-token"⟩, rfl⟩⟩
  · exact h.2.2.2.2.2.2.1.mpr ⟨rfl, rfl⟩

/-- C10: the stored `oauth_port` has no observable effect — two instances
differing only in `oauth_port` produce the same results, the same effect
traces and the same post-states (up to the stored port itself) on every
operation, `__init__` differs only in the stored port, and the interactive
OAuth local server is only ever started with port 0. -/
theorem C10_oauth_port_no_effect (env : Env) (api : Api) (s : State) (p1 p2 : Int) :
    (∀ eid, (find_one_event env api (setPort s p1) eid).result
        = (find_one_event env api (setPort s p2) eid).result)
    ∧ (∀ data, (create_event env api (setPort s p1) data).result
        = (create_event env api (setPort s p2) data).result)
    ∧ (∀ eid data, (update_event env api (setPort s p1) eid data).result
        = (update_event env api (setPort s p2) eid data).result)
    ∧ (∀ eid, (remove_event env api (setPort s p1) eid).result
        = (remove_event env api (setPort s p2) eid).result)
    ∧ (∀ limit sd ed fuel,
        (find_many_events env api (setPort s p1) limit sd ed fuel).result
          = (find_many_events env api (setPort s p2) limit sd ed fuel).result)
    ∧ (authGuard env (setPort s p1)).trace = (authGuard env (setPort s p2)).trace
    ∧ setPort (authGuard env (setPort s p1)).state 0
        = setPort (authGuard env (setPort s p2)).state 0
    ∧ (∀ q, EffOp.runLocalServer q ∈ (authGuard env s).trace → q = 0)
    ∧ (∀ sc cp tp cal au, setPort (init sc cp tp cal p1 au) p2 = init sc cp tp cal p2 au) := by
  refine ⟨?_, ?_, ?_, ?_, ?_, ?_, ?_, ?_, ?_⟩
  · intro eid
    show findOneBody api (authGuard env (setPort s p1)).state eid
        = findOneBody api (authGuard env (setPort s p2)).state eid
    rw [authGuard_setPort env s p1, authGuard_setPort env s p2]
    exact (findOneBody_setPort api (authGuard env s).state p1 eid).trans
      (findOneBody_setPort api (authGuard env s).state p2 eid).symm
  · intro data
    show createEventBody api (authGuard env (setPort s p1)).state data
        = createEventBody api (authGuard env (setPort s p2)).state data
    rw [authGuard_setPort env s p1, authGuard_setPort env s p2]
    exact (createEventBody_setPort api (authGuard env s).state p1 data).trans
      (createEventBody_setPort api (authGuard env s).state p2 data).symm
  · intro eid data
    show updateEventBody api (authGuard env (setPort s p1)).state eid data
        = updateEventBody api (authGuard env (setPort s p2)).state eid data
    rw [authGuard_setPort env s p1, authGuard_setPort env s p2]
    exact (updateEventBody_setPort api (authGuard env s).state p1 eid data).trans
      (updateEventBody_setPort api (authGuard env s).state p2 eid data).symm
  · intro eid
    show removeEventBody api (authGuard env (setPort s p1)).state eid
        = removeEventBody api (authGuard env (setPort s p2)).state eid
    rw [authGuard_setPort env s p1, authGuard_setPort env s p2]
    exact (removeEventBody_setPort api (authGuard env s).state p1 eid).trans
      (removeEventBody_setPort api (authGuard env s).state p2 eid).symm
  · intro limit sd ed fuel
    show findManyBody env api (authGuard env (setPort s p1)).state limit sd ed fuel
        = findManyBody env api (authGuard env (setPort s p2)).state limit sd ed fuel
    rw [authGuard_setPort env s p1, authGuard_setPort env s p2]
    exact (findManyBody_setPort env api (authGuard env s).state p1 limit sd ed fuel).trans
      (findManyBody_setPort env api (authGuard env s).state p2 limit sd ed fuel).symm
  · rw [authGuard_setPort env s p1, authGuard_setPort env s p2]
  · rw [authGuard_setPort env s p1, authGuard_setPort env s p2]
    simp [setPort]
  · intro q hq
    exact authGuard_runLocalServer_zero env s q hq
  · intro sc cp tp cal au
    simp [setPort, init]

/-- C10 witness: the port-independence statement evaluated at two ports, and
the local server observed to run with port 0. -/
theorem C10_oauth_port_no_effect_witness :
    (find_one_event envStale apiNull (setPort s0 1234) "e1").result
        = (find_one_event envStale apiNull (setPort s0 8080) "e1").result
    ∧ EffOp.runLocalServer 0 ∈ (authGuard envStale s0).trace
    ∧ (0 : Nat) = 0 := by
  have h := C10_oauth_port_no_effect envStale apiNull s0 1234 8080
  exact ⟨h.1 "e1", by decide, h.2.2.2.2.2.2.2.1 0 (by decide)⟩

end GCal
